import Mathlib

/-!
Verification development for the Sonarr MCP server core: the API client's
retry/error-handling executor, the tool registry, and the resource registry.
JavaScript numbers are modelled as rationals (all arithmetic in the verified
fragment is exact), fallible asynchronous calls as `Except`, and the upstream
HTTP client as an oracle record of responses.  JSON serialization
(`JSON.stringify`) is abstracted away: resources are modelled up to the
structured value that gets serialized; object fields whose JS value would be
`undefined` (and hence omitted by the serializer) are represented as `null`.
-/

namespace Sonarr

/-- Floor of a rational, computable (Euclidean division by the positive
denominator). -/
def ratFloor (q : ℚ) : ℤ := Int.ediv q.num q.den

/-- Ceiling of a rational, computable. -/
def ratCeil (q : ℚ) : ℤ := -(ratFloor (-q))

/-- JS `Math.round`: round half toward positive infinity. -/
def jround (q : ℚ) : ℤ := ratFloor (q + 1/2)

/-- JS number-to-string printing for a value of the form `z / 100` (the shape
produced by `Math.round(x * 100) / 100`): no trailing zeros, no decimal point
for integers. -/
def fmt2 (z : ℤ) : String :=
  let sign := if z < 0 then "-" else ""
  let n := z.natAbs
  let ip := n / 100
  let fr := n % 100
  if fr == 0 then sign ++ toString ip
  else if fr % 10 == 0 then sign ++ toString ip ++ "." ++ toString (fr / 10)
  else if fr < 10 then sign ++ toString ip ++ ".0" ++ toString fr
  else sign ++ toString ip ++ "." ++ toString fr

/-- JS `String.prototype.padStart(2, '0')` applied to `n.toString()`. -/
def pad2 (n : ℤ) : String :=
  let s := toString n
  if s.length < 2 then "0" ++ s else s

/-- Auxiliary for substring search: does the second list start with the
first? -/
def startsW : List Char → List Char → Bool
  | [], _ => true
  | _ :: _, [] => false
  | p :: ps, x :: xs => p == x && startsW ps xs

/-- Auxiliary for substring search over character lists. -/
def hasSub (pat : List Char) : List Char → Bool
  | [] => startsW pat []
  | x :: xs => startsW pat (x :: xs) || hasSub pat xs

/-- JS `String.prototype.includes`. -/
def jsIncludes (hay sub : String) : Bool := hasSub sub.toList hay.toList

/-- JS `String.prototype.toLowerCase()` (ASCII, per-character). -/
def jsToLower (s : String) : String := String.mk (s.data.map Char.toLower)

/-- Value of a list of decimal digit characters. -/
def digitsToNat : List Char → Nat → Nat
  | [], acc => acc
  | c :: cs, acc => digitsToNat cs (acc * 10 + (c.toNat - '0'.toNat))

/-- Longest leading run of decimal digits. -/
def takeDigits : List Char → List Char
  | [] => []
  | c :: cs => if c.isDigit then c :: takeDigits cs else []

/-- JS `parseInt` restricted to base 10: skip leading whitespace, optional
sign, then the longest digit run; `none` models `NaN`. -/
def jsParseInt (s : String) : Option Int :=
  let cs := s.toList.dropWhile (fun c => c == ' ' || c == '\t' || c == '\n' || c == '\r')
  let signAndRest : Int × List Char :=
    match cs with
    | '-' :: r => (-1, r)
    | '+' :: r => (1, r)
    | r => (1, r)
  let ds := takeDigits signAndRest.2
  if ds.isEmpty then none
  else some (signAndRest.1 * (digitsToNat ds 0 : Int))

/-- JS `a || b` for an optional string argument (empty string is falsy). -/
def jsOrS (o : Option String) (d : String) : String :=
  match o with
  | some s => if s == "" then d else s
  | none => d

/-- JS `a || b` for an optional integer argument (0 is falsy). -/
def jsOrI (o : Option Int) (d : Int) : Int :=
  match o with
  | some x => if x == 0 then d else x
  | none => d

/-- JS `a || b` for an optional boolean argument (false is falsy, so the
result is `true` only when the argument is literally `true`). -/
def jsOrB (o : Option Bool) (d : Bool) : Bool :=
  match o with
  | some b => b || d
  | none => d

/-- JS truthiness of an optional integer argument. -/
def truthyI (o : Option Int) : Bool :=
  match o with
  | some x => x != 0
  | none => false

/-- JS truthiness of an optional string argument. -/
def truthyS (o : Option String) : Bool :=
  match o with
  | some s => s != ""
  | none => false

/-- Normalized client error (`SonarrApiError` from `src/api/sonarr-client.ts`):
a human-readable message and the HTTP status code when one is known.  Errors
that are not `SonarrApiError` instances carry `statusCode = none`, which makes
the retry guard behave identically to the source's `instanceof` check. -/
structure ApiError where
  message : String
  statusCode : Option Nat
  deriving Repr, DecidableEq

/-- Retry guard from `executeWithRetry`: the loop breaks (does not retry) when
`error instanceof SonarrApiError && error.statusCode && error.statusCode < 500`
holds; a status code of 0 is falsy in JS. -/
def clientNoRetry (e : ApiError) : Bool :=
  match e.statusCode with
  | some s => s != 0 && decide (s < 500)
  | none => false

/-- Backoff before the retry that follows a failed attempt with 0-based index
`attempt`: `Math.min(1000 * Math.pow(2, attempt), 10000)` milliseconds. -/
def backoffDelay (attempt : Nat) : Nat := min (1000 * 2 ^ attempt) 10000

/-- Loop body of `SonarrApiClient.executeWithRetry`.  `attempt` is the 0-based
index of the current invocation and `rem = retries - attempt` the number of
attempts still allowed after it; the result records the settled outcome, the
number of invocations of the operation, and the list of backoff delays slept
(in order).  The operation is modelled as a function of the attempt index so
that distinct attempts may settle differently. -/
def retryGo {α : Type} (op : Nat → Except ApiError α) (attempt : Nat) :
    Nat → Except ApiError α × Nat × List Nat
  | 0 =>
    match op attempt with
    | Except.ok v => (Except.ok v, 1, [])
    | Except.error e => (Except.error e, 1, [])
  | rem + 1 =>
    match op attempt with
    | Except.ok v => (Except.ok v, 1, [])
    | Except.error e =>
      if clientNoRetry e then (Except.error e, 1, [])
      else
        let r := retryGo op (attempt + 1) rem
        (r.1, r.2.1 + 1, backoffDelay attempt :: r.2.2)

/-- `SonarrApiClient.executeWithRetry(operation, retries)`: run the operation
up to `retries + 1` times starting at attempt index 0; the default for
`retries` in the source is the configured `maxRetries`. -/
def executeWithRetry {α : Type} (op : Nat → Except ApiError α) (retries : Nat) :
    Except ApiError α × Nat × List Nat :=
  retryGo op 0 retries

/-- Connection configuration (`SonarrConfig` from `src/config/config.ts`). -/
structure SonarrConfig where
  url : String
  apiKey : String
  timeout : Nat
  maxRetries : Nat
  verifySsl : Bool
  deriving Repr, DecidableEq

/-- `SonarrApiClient.testConnection`: call the system-status endpoint, resolve
silently on success, and on failure throw a `SonarrApiError` wrapping the
original message (constructed with no status code).  The system-status call is
abstracted as its settled outcome. -/
def testConnection (cfg : SonarrConfig) (statusCall : Except ApiError Unit) :
    Except ApiError Unit :=
  match statusCall with
  | Except.ok _ => Except.ok ()
  | Except.error e =>
    Except.error
      { message := "Failed to connect to Sonarr at " ++ cfg.url ++ ": " ++ e.message
        statusCode := none }

/-- JSON-like value produced by the tool and resource layers.  Numbers are
rationals (exact model of the JS arithmetic that occurs here). -/
inductive Jv where
  | null : Jv
  | bool (b : Bool) : Jv
  | num (q : ℚ) : Jv
  | str (s : String) : Jv
  | arr (xs : List Jv) : Jv
  | obj (fields : List (String × Jv)) : Jv

/-- Field lookup in a JSON object value. -/
def Jv.get (j : Jv) (k : String) : Option Jv :=
  match j with
  | Jv.obj fs => List.lookup k fs
  | _ => none

/-- Optional string to JSON value (`undefined` is serialized away; we keep it
as `null`). -/
def optStr (o : Option String) : Jv :=
  match o with
  | some s => Jv.str s
  | none => Jv.null

/-- Optional integer to JSON value. -/
def optInt (o : Option Int) : Jv :=
  match o with
  | some n => Jv.num (n : ℚ)
  | none => Jv.null

/-- Quality descriptor (`Quality` in `src/types/index.ts`; fields this core
reads). -/
structure Quality where
  id : Int
  name : String
  source : String
  resolution : Int
  deriving Repr, DecidableEq

/-- Quality model wrapper (`QualityModel`). -/
structure QualityModel where
  quality : Quality
  deriving Repr, DecidableEq

/-- Custom format (`CustomFormat`; fields this core reads). -/
structure CustomFormat where
  id : Int
  name : String
  deriving Repr, DecidableEq

/-- Series record (`Series`; the fields read or written by the embedded
operations — the remaining DTO fields are never touched by the core). -/
structure Series where
  id : Int
  title : String
  titleSlug : String
  year : Int
  status : String
  overview : String
  network : String
  path : String
  monitored : Bool
  seasonCount : Int
  episodeCount : Int
  episodeFileCount : Int
  sizeOnDisk : ℚ
  qualityProfileId : Int
  previousAiring : Option String
  nextAiring : Option String
  genres : List String
  deriving Repr, DecidableEq

/-- Episode record (`Episode`; fields this core reads or writes). -/
structure Episode where
  id : Int
  seriesId : Int
  seasonNumber : Int
  episodeNumber : Int
  title : String
  airDate : Option String
  hasFile : Bool
  monitored : Bool
  deriving Repr, DecidableEq

/-- TVDB search result (`TvdbSearchResult`; fields this core reads). -/
structure TvdbSearchResult where
  tvdbId : Int
  title : String
  titleSlug : String
  year : Option Int
  network : Option String
  overview : Option String
  deriving Repr, DecidableEq

/-- Queue status message (`QueueStatusMessage`). -/
structure QueueStatusMessage where
  title : String
  messages : List String
  deriving Repr, DecidableEq

/-- Download queue record (`QueueItem`; fields this core reads). -/
structure QueueItem where
  id : Int
  title : String
  series : Series
  episode : Episode
  quality : QualityModel
  size : ℚ
  sizeleft : ℚ
  status : String
  trackedDownloadStatus : String
  trackedDownloadState : String
  timeleft : Option String
  estimatedCompletionTime : Option String
  protocol : String
  downloadClient : String
  indexer : String
  downloadId : String
  errorMessage : Option String
  statusMessages : List QueueStatusMessage
  deriving Repr, DecidableEq

/-- History record (`HistoryItem`; fields this core reads). -/
structure HistoryItem where
  id : Int
  eventType : String
  date : String
  sourceTitle : String
  downloadId : Option String
  series : Series
  episode : Episode
  quality : QualityModel
  customFormats : List CustomFormat
  qualityCutoffNotMet : Bool
  customFormatScore : Int
  data : List (String × String)
  deriving Repr, DecidableEq

/-- Calendar record (`CalendarItem`; fields this core reads). -/
structure CalendarItem where
  id : Int
  seriesId : Int
  seasonNumber : Int
  episodeNumber : Int
  title : String
  airDate : String
  airDateUtc : String
  overview : String
  hasFile : Bool
  monitored : Bool
  series : Series
  deriving Repr, DecidableEq

/-- Wanted episode record (`WantedEpisode`; fields this core reads). -/
structure WantedEpisode where
  id : Int
  seriesId : Int
  seasonNumber : Int
  episodeNumber : Int
  title : String
  airDate : Option String
  airDateUtc : Option String
  overview : String
  hasFile : Bool
  monitored : Bool
  series : Series
  deriving Repr, DecidableEq

/-- System status (`SystemStatus`; fields this core reads). -/
structure SystemStatus where
  version : String
  buildTime : String
  startTime : String
  isDebug : Bool
  isProduction : Bool
  startupPath : String
  appData : String
  osName : String
  osVersion : String
  isMono : Bool
  isLinux : Bool
  isOsx : Bool
  isWindows : Bool
  branch : String
  authentication : String
  sqliteVersion : String
  migrationVersion : Int
  urlBase : String
  runtimeVersion : String
  runtimeName : String
  deriving Repr, DecidableEq

/-- Disk space entry (`DiskSpace`). -/
structure DiskSpace where
  path : String
  label : String
  freeSpace : ℚ
  totalSpace : ℚ
  deriving Repr, DecidableEq

/-- Quality profile item (`QualityProfileItem`): possibly a group with nested
items. -/
inductive QualityProfileItem where
  | mk (quality : Option Quality) (allowed : Bool)
      (items : Option (List QualityProfileItem)) : QualityProfileItem

/-- Quality field of a profile item. -/
def QualityProfileItem.quality : QualityProfileItem → Option Quality
  | QualityProfileItem.mk q _ _ => q

/-- Allowed flag of a profile item. -/
def QualityProfileItem.allowed : QualityProfileItem → Bool
  | QualityProfileItem.mk _ a _ => a

/-- Nested items of a profile item. -/
def QualityProfileItem.items : QualityProfileItem → Option (List QualityProfileItem)
  | QualityProfileItem.mk _ _ i => i

/-- Quality profile (`QualityProfile`; fields this core reads). -/
structure QualityProfile where
  id : Int
  name : String
  upgradeAllowed : Bool
  cutoff : Int
  items : List QualityProfileItem

/-- Language profile (`LanguageProfile`; fields this core reads). -/
structure LanguageProfile where
  id : Int
  name : String
  deriving Repr, DecidableEq

/-- Unmapped folder inside a root folder. -/
structure UnmappedFolder where
  name : String
  path : String
  deriving Repr, DecidableEq

/-- Root folder (`RootFolder`; fields this core reads). -/
structure RootFolder where
  id : Int
  path : String
  accessible : Bool
  freeSpace : ℚ
  unmappedFolders : List UnmappedFolder
  deriving Repr, DecidableEq

/-- Nested add options carried by the add-series request body. -/
structure AddOptions where
  monitor : String
  searchForMissingEpisodes : Bool
  deriving Repr, DecidableEq

/-- Request body issued by the `add_series` tool (`client.addSeries({...})`). -/
structure AddSeriesPayload where
  title : String
  titleSlug : String
  tvdbId : Int
  qualityProfileId : Int
  languageProfileId : Int
  rootFolderPath : String
  monitored : Bool
  seasonFolder : Bool
  addOptions : AddOptions
  deriving Repr, DecidableEq

/-- Pagination envelope (`PaginatedResponse`; fields this core reads). -/
structure Paginated (α : Type) where
  page : Int
  pageSize : Int
  totalRecords : Int
  records : List α
  deriving Repr

/-- Queue query parameters at the two call sites (`getQueue()` from the tool
and `getQueue({page, pageSize, includeSeries, includeEpisode})` from the
resource). -/
structure QueueParams where
  page : Int
  pageSize : Int
  includeSeries : Bool
  includeEpisode : Bool
  deriving Repr, DecidableEq

/-- History query parameters at the two call sites. -/
structure HistoryParams where
  page : Int
  pageSize : Int
  seriesId : Option Int := none
  eventType : Option String := none
  includeSeries : Bool := false
  includeEpisode : Bool := false
  deriving Repr, DecidableEq

/-- Wanted query parameters. -/
structure PageParams where
  page : Int
  pageSize : Int
  deriving Repr, DecidableEq

/-- Oracle for the `SonarrApiClient` methods invoked by the tool and resource
layers: each field is the settled outcome of the corresponding HTTP call as a
function of the arguments passed at the call site. -/
structure Client where
  getSystemStatus : Except ApiError SystemStatus
  getDiskSpace : Except ApiError (List DiskSpace)
  getSeries : Except ApiError (List Series)
  getSeriesById : Int → Except ApiError Series
  addSeries : AddSeriesPayload → Except ApiError Series
  updateSeries : Series → Except ApiError Series
  deleteSeries : Int → Bool → Except ApiError Unit
  searchSeries : String → Except ApiError (List TvdbSearchResult)
  getEpisodesBySeries : Int → Except ApiError (List Episode)
  getEpisodeById : Int → Except ApiError Episode
  updateEpisodes : List Episode → Except ApiError Unit
  getWantedMissing : PageParams → Except ApiError (Paginated WantedEpisode)
  getWantedCutoffUnmet : PageParams → Except ApiError (Paginated WantedEpisode)
  getCalendar : Option String → Option String → Bool → Except ApiError (List CalendarItem)
  getQueue : Option QueueParams → Except ApiError (Paginated QueueItem)
  removeFromQueue : Int → Except ApiError Unit
  getHistory : HistoryParams → Except ApiError (Paginated HistoryItem)
  searchEpisodes : List Int → Except ApiError Unit
  searchSeriesMissing : Int → Except ApiError Unit
  searchAllMissing : Except ApiError Unit
  getQualityProfiles : Except ApiError (List QualityProfile)
  getLanguageProfiles : Except ApiError (List LanguageProfile)
  getRootFolders : Except ApiError (List RootFolder)

/-- Trace entry: one client call issued by a tool, with the arguments passed. -/
inductive Call where
  | getSystemStatus : Call
  | getDiskSpace : Call
  | getSeries : Call
  | getSeriesById (id : Int) : Call
  | addSeries (payload : AddSeriesPayload) : Call
  | updateSeries (s : Series) : Call
  | deleteSeries (id : Int) (deleteFiles : Bool) : Call
  | searchSeries (term : String) : Call
  | getEpisodesBySeries (seriesId : Int) : Call
  | getEpisodeById (id : Int) : Call
  | updateEpisodes (eps : List Episode) : Call
  | getWantedMissing (p : PageParams) : Call
  | getWantedCutoffUnmet (p : PageParams) : Call
  | getCalendar (start : Option String) (stop : Option String) (unmonitored : Bool) : Call
  | getQueue (p : Option QueueParams) : Call
  | removeFromQueue (id : Int) : Call
  | getHistory (p : HistoryParams) : Call
  | searchEpisodes (ids : List Int) : Call
  | searchSeriesMissing (seriesId : Int) : Call
  | searchAllMissing : Call
  | getQualityProfiles : Call
  | getLanguageProfiles : Call
  | getRootFolders : Call
  deriving Repr, DecidableEq

/-- Client whose every call settles with the same error — used to observe how
the tool/resource layers propagate an underlying fetch failure. -/
def failingClient (e : ApiError) : Client where
  getSystemStatus := Except.error e
  getDiskSpace := Except.error e
  getSeries := Except.error e
  getSeriesById := fun _ => Except.error e
  addSeries := fun _ => Except.error e
  updateSeries := fun _ => Except.error e
  deleteSeries := fun _ _ => Except.error e
  searchSeries := fun _ => Except.error e
  getEpisodesBySeries := fun _ => Except.error e
  getEpisodeById := fun _ => Except.error e
  updateEpisodes := fun _ => Except.error e
  getWantedMissing := fun _ => Except.error e
  getWantedCutoffUnmet := fun _ => Except.error e
  getCalendar := fun _ _ _ => Except.error e
  getQueue := fun _ => Except.error e
  removeFromQueue := fun _ => Except.error e
  getHistory := fun _ => Except.error e
  searchEpisodes := fun _ => Except.error e
  searchSeriesMissing := fun _ => Except.error e
  searchAllMissing := Except.error e
  getQualityProfiles := Except.error e
  getLanguageProfiles := Except.error e
  getRootFolders := Except.error e

/-- Tool result content entry (`TextContent | JsonContent`). -/
inductive Content where
  | text (s : String) : Content
  | json (j : Jv) : Content

/-- MCP tool result; a missing `isError` in the source is `false` here. -/
structure ToolResult where
  content : List Content
  isError : Bool := false

/-- Tool arguments (`args: any` in the source).  Schema-required fields are
total; optional ones are `Option`.  A required field left at its default
models the dispatcher guaranteeing its presence. -/
structure Args where
  query : String := ""
  rootFolder : String := ""
  qualityProfile : String := ""
  monitor : Option String := none
  searchForMissingEpisodes : Option Bool := none
  seasonFolder : Option Bool := none
  monitored : Option Bool := none
  status : Option String := none
  search : Option String := none
  seriesId : Option Int := none
  seasonNumber : Option Int := none
  hasFile : Option Bool := none
  episodeIds : List Int := []
  action : String := ""
  queueId : Option Int := none
  page : Option Int := none
  pageSize : Option Int := none
  eventType : Option String := none
  type : Option String := none
  start : Option String := none
  «end» : Option String := none
  unmonitored : Option Bool := none
  deleteFiles : Option Bool := none
  qualityProfileId : Option Int := none

/-- Value of a schema-required integer argument (assumed present). -/
def reqI (o : Option Int) : Int := o.getD 0

/-- Value of a schema-required boolean argument (assumed present). -/
def reqB (o : Option Bool) : Bool := o.getD false

/-- Error-boundary result: every tool's catch block produces this shape. -/
def errResult (msg : String) : ToolResult := { content := [Content.text msg], isError := true }

/-- Formatted `SxxEyy` episode code (`padStart(2, '0')` on both numbers). -/
def epCode (season episode : Int) : String :=
  "S" ++ pad2 season ++ "E" ++ pad2 episode

/-- `add_series` execute body (`createAddSeriesTool`). -/
def addSeriesExecute (c : Client) (a : Args) : ToolResult × List Call :=
  match c.searchSeries a.query with
  | Except.error e =>
    (errResult ("Failed to add series: " ++ e.message), [Call.searchSeries a.query])
  | Except.ok searchResults =>
    match searchResults with
    | [] =>
      ({ content := [Content.text ("No series found matching \"" ++ a.query ++ "\"")],
         isError := true }, [Call.searchSeries a.query])
    | seriesData :: _ =>
      match c.getQualityProfiles with
      | Except.error e =>
        (errResult ("Failed to add series: " ++ e.message),
         [Call.searchSeries a.query, Call.getQualityProfiles])
      | Except.ok qualityProfiles =>
        let resolved : Except ToolResult Int :=
          match jsParseInt a.qualityProfile with
          | none =>
            match qualityProfiles.find?
                (fun p => jsToLower p.name == jsToLower a.qualityProfile) with
            | none =>
              Except.error
                { content := [Content.text ("Quality profile \"" ++ a.qualityProfile
                    ++ "\" not found. Available profiles: "
                    ++ String.intercalate ", " (qualityProfiles.map (fun p => p.name)))],
                  isError := true }
            | some profile => Except.ok profile.id
          | some n => Except.ok n
        match resolved with
        | Except.error r => (r, [Call.searchSeries a.query, Call.getQualityProfiles])
        | Except.ok qualityProfileId =>
          match c.getLanguageProfiles with
          | Except.error e =>
            (errResult ("Failed to add series: " ++ e.message),
             [Call.searchSeries a.query, Call.getQualityProfiles, Call.getLanguageProfiles])
          | Except.ok languageProfiles =>
            let languageProfileId : Int :=
              match languageProfiles with
              | [] => 1
              | lp :: _ => if lp.id == 0 then 1 else lp.id
            let payload : AddSeriesPayload :=
              { title := seriesData.title
                titleSlug := seriesData.titleSlug
                tvdbId := seriesData.tvdbId
                qualityProfileId := qualityProfileId
                languageProfileId := languageProfileId
                rootFolderPath := a.rootFolder
                monitored := true
                seasonFolder := a.seasonFolder.getD true
                addOptions :=
                  { monitor := jsOrS a.monitor "all"
                    searchForMissingEpisodes := jsOrB a.searchForMissingEpisodes false } }
            let trace := [Call.searchSeries a.query, Call.getQualityProfiles,
                          Call.getLanguageProfiles, Call.addSeries payload]
            match c.addSeries payload with
            | Except.error e =>
              (errResult ("Failed to add series: " ++ e.message), trace)
            | Except.ok addedSeries =>
              ({ content := [
                   Content.text ("Successfully added series: " ++ addedSeries.title
                     ++ " (" ++ toString addedSeries.year ++ ")"),
                   Content.json (Jv.obj [
                     ("id", Jv.num (addedSeries.id : ℚ)),
                     ("title", Jv.str addedSeries.title),
                     ("year", Jv.num (addedSeries.year : ℚ)),
                     ("path", Jv.str addedSeries.path),
                     ("monitored", Jv.bool addedSeries.monitored),
                     ("seasonCount", Jv.num (addedSeries.seasonCount : ℚ))])] },
               trace)

/-- Sequential filters applied by `list_series` (monitored flag, status,
case-insensitive title substring, in that order). -/
def listSeriesFilter (a : Args) (allSeries : List Series) : List Series :=
  let f1 := match a.monitored with
    | some m => allSeries.filter (fun s => s.monitored == m)
    | none => allSeries
  let f2 := if truthyS a.status then
      f1.filter (fun s => s.status == a.status.getD "")
    else f1
  if truthyS a.search then
    f2.filter (fun s => jsIncludes (jsToLower s.title) (jsToLower (a.search.getD "")))
  else f2

/-- Reshaped per-series summary entry emitted by `list_series`. -/
def listSeriesEntry (s : Series) : Jv :=
  Jv.obj [
    ("id", Jv.num (s.id : ℚ)),
    ("title", Jv.str s.title),
    ("year", Jv.num (s.year : ℚ)),
    ("status", Jv.str s.status),
    ("monitored", Jv.bool s.monitored),
    ("seasonCount", Jv.num (s.seasonCount : ℚ)),
    ("episodeCount", Jv.num (s.episodeCount : ℚ)),
    ("episodeFileCount", Jv.num (s.episodeFileCount : ℚ)),
    ("sizeOnDisk", Jv.str (fmt2 (jround (s.sizeOnDisk / (1024 * 1024 * 1024) * 100)) ++ " GB")),
    ("nextAiring", optStr s.nextAiring),
    ("network", Jv.str s.network)]

/-- Count summary emitted by `list_series`: only the monitored and status
filters are reflected in the wording. -/
def listSeriesText (a : Args) (n : Nat) : String :=
  "Found " ++ toString n ++ " series"
    ++ (match a.monitored with
        | some m => " (monitored: " ++ toString m ++ ")"
        | none => "")
    ++ (if truthyS a.status then " (status: " ++ a.status.getD "" ++ ")" else "")

/-- `list_series` execute body (`createListSeriesTool`). -/
def listSeriesExecute (c : Client) (a : Args) : ToolResult × List Call :=
  match c.getSeries with
  | Except.error e =>
    (errResult ("Failed to list series: " ++ e.message), [Call.getSeries])
  | Except.ok allSeries =>
    let filteredSeries := listSeriesFilter a allSeries
    ({ content := [
         Content.text (listSeriesText a filteredSeries.length),
         Content.json (Jv.arr (filteredSeries.map listSeriesEntry))] },
     [Call.getSeries])

/-- `update_series` execute body (`createUpdateSeriesTool`): read-modify-write
of the full series record. -/
def updateSeriesExecute (c : Client) (a : Args) : ToolResult × List Call :=
  match c.getSeriesById (reqI a.seriesId) with
  | Except.error e =>
    (errResult ("Failed to update series: " ++ e.message),
     [Call.getSeriesById (reqI a.seriesId)])
  | Except.ok series0 =>
    let series1 := match a.monitored with
      | some m => { series0 with monitored := m }
      | none => series0
    let series := match a.qualityProfileId with
      | some q => { series1 with qualityProfileId := q }
      | none => series1
    match c.updateSeries series with
    | Except.error e =>
      (errResult ("Failed to update series: " ++ e.message),
       [Call.getSeriesById (reqI a.seriesId), Call.updateSeries series])
    | Except.ok updated =>
      ({ content := [Content.text ("Successfully updated series: " ++ updated.title)] },
       [Call.getSeriesById (reqI a.seriesId), Call.updateSeries series])

/-- `remove_series` execute body (`createRemoveSeriesTool`). -/
def removeSeriesExecute (c : Client) (a : Args) : ToolResult × List Call :=
  match c.getSeriesById (reqI a.seriesId) with
  | Except.error e =>
    (errResult ("Failed to remove series: " ++ e.message),
     [Call.getSeriesById (reqI a.seriesId)])
  | Except.ok series =>
    match c.deleteSeries (reqI a.seriesId) (jsOrB a.deleteFiles false) with
    | Except.error e =>
      (errResult ("Failed to remove series: " ++ e.message),
       [Call.getSeriesById (reqI a.seriesId),
        Call.deleteSeries (reqI a.seriesId) (jsOrB a.deleteFiles false)])
    | Except.ok _ =>
      ({ content := [Content.text ("Successfully removed series: " ++ series.title
           ++ (if a.deleteFiles == some true then " (files deleted)" else ""))] },
       [Call.getSeriesById (reqI a.seriesId),
        Call.deleteSeries (reqI a.seriesId) (jsOrB a.deleteFiles false)])

/-- `search_series` execute body (`createSearchSeriesTool`).  An absent
`overview` reproduces the JS `undefined + '...'` concatenation. -/
def searchSeriesExecute (c : Client) (a : Args) : ToolResult × List Call :=
  match c.searchSeries a.query with
  | Except.error e =>
    (errResult ("Failed to search series: " ++ e.message), [Call.searchSeries a.query])
  | Except.ok results =>
    ({ content := [
         Content.text ("Found " ++ toString results.length ++ " series matching \""
           ++ a.query ++ "\""),
         Content.json (Jv.arr (results.map (fun s => Jv.obj [
           ("tvdbId", Jv.num (s.tvdbId : ℚ)),
           ("title", Jv.str s.title),
           ("year", optInt s.year),
           ("network", optStr s.network),
           ("overview", Jv.str ((match s.overview with
              | some o => (o.take 200)
              | none => "undefined") ++ "..."))])))] },
     [Call.searchSeries a.query])

/-- `list_episodes` execute body (`createListEpisodesTool`). -/
def listEpisodesExecute (c : Client) (a : Args) : ToolResult × List Call :=
  match c.getEpisodesBySeries (reqI a.seriesId) with
  | Except.error e =>
    (errResult ("Failed to list episodes: " ++ e.message),
     [Call.getEpisodesBySeries (reqI a.seriesId)])
  | Except.ok eps0 =>
    let eps1 : List Episode := match a.seasonNumber with
      | some sn => eps0.filter (fun e => e.seasonNumber == sn)
      | none => eps0
    let eps2 : List Episode := match a.monitored with
      | some m => eps1.filter (fun e => e.monitored == m)
      | none => eps1
    let episodes : List Episode := match a.hasFile with
      | some h => eps2.filter (fun e => e.hasFile == h)
      | none => eps2
    ({ content := [
         Content.text ("Found " ++ toString episodes.length ++ " episodes"),
         Content.json (Jv.arr (episodes.map (fun e => Jv.obj [
           ("id", Jv.num (e.id : ℚ)),
           ("title", Jv.str e.title),
           ("seasonNumber", Jv.num (e.seasonNumber : ℚ)),
           ("episodeNumber", Jv.num (e.episodeNumber : ℚ)),
           ("airDate", optStr e.airDate),
           ("hasFile", Jv.bool e.hasFile),
           ("monitored", Jv.bool e.monitored)])))] },
     [Call.getEpisodesBySeries (reqI a.seriesId)])

/-- `search_episodes` execute body (`createSearchEpisodesTool`). -/
def searchEpisodesExecute (c : Client) (a : Args) : ToolResult × List Call :=
  match c.searchEpisodes a.episodeIds with
  | Except.error e =>
    (errResult ("Failed to search episodes: " ++ e.message),
     [Call.searchEpisodes a.episodeIds])
  | Except.ok _ =>
    ({ content := [Content.text ("Started search for "
         ++ toString a.episodeIds.length ++ " episodes")] },
     [Call.searchEpisodes a.episodeIds])

/-- Fetch loop of `monitor_episodes`: fetch each episode by id, set its
monitored flag, collect; stops at the first failing fetch. -/
def monitorFetch (c : Client) (mon : Bool) :
    List Int → Except ApiError (List Episode) × List Call
  | [] => (Except.ok [], [])
  | id :: ids =>
    match c.getEpisodeById id with
    | Except.error e => (Except.error e, [Call.getEpisodeById id])
    | Except.ok ep =>
      let r := monitorFetch c mon ids
      match r.1 with
      | Except.error e2 => (Except.error e2, Call.getEpisodeById id :: r.2)
      | Except.ok rest =>
        (Except.ok ({ ep with monitored := mon } :: rest), Call.getEpisodeById id :: r.2)

/-- `monitor_episodes` execute body (`createMonitorEpisodesTool`). -/
def monitorEpisodesExecute (c : Client) (a : Args) : ToolResult × List Call :=
  let fetched := monitorFetch c (reqB a.monitored) a.episodeIds
  match fetched.1 with
  | Except.error e =>
    (errResult ("Failed to update episode monitoring: " ++ e.message), fetched.2)
  | Except.ok episodes =>
    match c.updateEpisodes episodes with
    | Except.error e =>
      (errResult ("Failed to update episode monitoring: " ++ e.message),
       fetched.2 ++ [Call.updateEpisodes episodes])
    | Except.ok _ =>
      ({ content := [Content.text ("Updated monitoring status for "
           ++ toString a.episodeIds.length ++ " episodes to "
           ++ toString (reqB a.monitored))] },
       fetched.2 ++ [Call.updateEpisodes episodes])

/-- Reshaped queue entry emitted by `manage_queue` with `action="list"`:
progress is the string `"{percent}%"`, or `"Unknown"` when the size is 0. -/
def manageQueueItem (item : QueueItem) : Jv :=
  Jv.obj [
    ("id", Jv.num (item.id : ℚ)),
    ("title", Jv.str item.title),
    ("series", Jv.str item.series.title),
    ("episode", Jv.str (epCode item.episode.seasonNumber item.episode.episodeNumber)),
    ("quality", Jv.str item.quality.quality.name),
    ("status", Jv.str item.status),
    ("progress", Jv.str (if 0 < item.size then
        toString (jround ((1 - item.sizeleft / item.size) * 100)) ++ "%"
      else "Unknown")),
    ("timeLeft", optStr item.timeleft)]

/-- `manage_queue` execute body (`createManageQueueTool`).  The remove branch
requires a truthy `queueId` (JS `args.queueId`); every other combination falls
through to a validation error returned in-band. -/
def manageQueueExecute (c : Client) (a : Args) : ToolResult × List Call :=
  if a.action == "list" then
    match c.getQueue none with
    | Except.error e =>
      (errResult ("Failed to manage queue: " ++ e.message), [Call.getQueue none])
    | Except.ok queue =>
      ({ content := [
           Content.text ("Found " ++ toString queue.records.length
             ++ " items in download queue"),
           Content.json (Jv.arr (queue.records.map manageQueueItem))] },
       [Call.getQueue none])
  else if a.action == "remove" && truthyI a.queueId then
    match c.removeFromQueue (reqI a.queueId) with
    | Except.error e =>
      (errResult ("Failed to manage queue: " ++ e.message),
       [Call.removeFromQueue (reqI a.queueId)])
    | Except.ok _ =>
      ({ content := [Content.text ("Removed item " ++ toString (reqI a.queueId)
           ++ " from queue")] },
       [Call.removeFromQueue (reqI a.queueId)])
  else
    ({ content := [Content.text "Invalid action or missing queueId for remove action"],
       isError := true }, [])

/-- `get_history` execute body (`createGetHistoryTool`). -/
def getHistoryExecute (c : Client) (a : Args) : ToolResult × List Call :=
  let params : HistoryParams :=
    { page := jsOrI a.page 1, pageSize := jsOrI a.pageSize 20,
      seriesId := a.seriesId, eventType := a.eventType }
  match c.getHistory params with
  | Except.error e =>
    (errResult ("Failed to get history: " ++ e.message), [Call.getHistory params])
  | Except.ok history =>
    ({ content := [
         Content.text ("Found " ++ toString history.totalRecords
           ++ " history items (page " ++ toString history.page ++ "/"
           ++ toString (ratCeil ((history.totalRecords : ℚ) / (history.pageSize : ℚ)))
           ++ ")"),
         Content.json (Jv.arr (history.records.map (fun item => Jv.obj [
           ("id", Jv.num (item.id : ℚ)),
           ("eventType", Jv.str item.eventType),
           ("series", Jv.str item.series.title),
           ("episode", Jv.str (epCode item.episode.seasonNumber item.episode.episodeNumber
             ++ " - " ++ item.episode.title)),
           ("quality", Jv.str item.quality.quality.name),
           ("date", Jv.str item.date),
           ("sourceTitle", Jv.str item.sourceTitle)])))] },
     [Call.getHistory params])

/-- Per-disk entry of the `system_status` tool: GB values as strings with 2
decimals, percent-free as an integer percent string. -/
def systemStatusToolDiskEntry (disk : DiskSpace) : Jv :=
  Jv.obj [
    ("path", Jv.str disk.path),
    ("label", Jv.str disk.label),
    ("freeSpace", Jv.str (fmt2 (jround (disk.freeSpace / (1024 * 1024 * 1024) * 100))
      ++ " GB")),
    ("totalSpace", Jv.str (fmt2 (jround (disk.totalSpace / (1024 * 1024 * 1024) * 100))
      ++ " GB")),
    ("percentFree", Jv.str (toString (jround (disk.freeSpace / disk.totalSpace * 100))
      ++ "%"))]

/-- `system_status` execute body (`createSystemStatusTool`): status and disk
space fetched jointly (`Promise.all`), then reshaped with GB strings and an
integer percent-free string. -/
def systemStatusExecute (c : Client) (_ : Args) : ToolResult × List Call :=
  match c.getSystemStatus, c.getDiskSpace with
  | Except.error e, _ =>
    (errResult ("Failed to get system status: " ++ e.message),
     [Call.getSystemStatus, Call.getDiskSpace])
  | _, Except.error e =>
    (errResult ("Failed to get system status: " ++ e.message),
     [Call.getSystemStatus, Call.getDiskSpace])
  | Except.ok status, Except.ok diskSpace =>
    ({ content := [
         Content.text ("Sonarr " ++ status.version ++ " running on "
           ++ status.osName ++ " " ++ status.osVersion),
         Content.json (Jv.obj [
           ("version", Jv.str status.version),
           ("uptime", Jv.str status.startTime),
           ("os", Jv.str (status.osName ++ " " ++ status.osVersion)),
           ("runtime", Jv.str (status.runtimeName ++ " " ++ status.runtimeVersion)),
           ("diskSpace", Jv.arr (diskSpace.map systemStatusToolDiskEntry))])] },
     [Call.getSystemStatus, Call.getDiskSpace])

/-- `get_calendar` execute body (`createGetCalendarTool`). -/
def getCalendarExecute (c : Client) (a : Args) : ToolResult × List Call :=
  match c.getCalendar a.start a.«end» (jsOrB a.unmonitored false) with
  | Except.error e =>
    (errResult ("Failed to get calendar: " ++ e.message),
     [Call.getCalendar a.start a.«end» (jsOrB a.unmonitored false)])
  | Except.ok calendar =>
    ({ content := [
         Content.text ("Found " ++ toString calendar.length ++ " upcoming episodes"),
         Content.json (Jv.arr (calendar.map (fun item => Jv.obj [
           ("series", Jv.str item.series.title),
           ("episode", Jv.str (epCode item.seasonNumber item.episodeNumber
             ++ " - " ++ item.title)),
           ("airDate", Jv.str item.airDate),
           ("airDateUtc", Jv.str item.airDateUtc),
           ("hasFile", Jv.bool item.hasFile),
           ("monitored", Jv.bool item.monitored),
           ("network", Jv.str item.series.network)])))] },
     [Call.getCalendar a.start a.«end» (jsOrB a.unmonitored false)])

/-- `search_missing_episodes` execute body
(`createSearchMissingEpisodesTool`).  Mode selection follows the source's JS
truthiness tests on `args.seriesId` and `args.seasonNumber`. -/
def searchMissingExecute (c : Client) (a : Args) : ToolResult × List Call :=
  if truthyI a.seriesId then
    if truthyI a.seasonNumber then
      match c.getEpisodesBySeries (reqI a.seriesId) with
      | Except.error e =>
        (errResult ("Failed to search for missing episodes: " ++ e.message),
         [Call.getEpisodesBySeries (reqI a.seriesId)])
      | Except.ok episodes =>
        let seasonEpisodes := episodes.filter (fun e =>
          e.seasonNumber == reqI a.seasonNumber && !e.hasFile && e.monitored)
        if 0 < seasonEpisodes.length then
          match c.searchEpisodes (seasonEpisodes.map (fun e => e.id)) with
          | Except.error e =>
            (errResult ("Failed to search for missing episodes: " ++ e.message),
             [Call.getEpisodesBySeries (reqI a.seriesId),
              Call.searchEpisodes (seasonEpisodes.map (fun e => e.id))])
          | Except.ok _ =>
            ({ content := [Content.text ("Started search for "
                 ++ toString seasonEpisodes.length ++ " missing episodes in season "
                 ++ toString (reqI a.seasonNumber))] },
             [Call.getEpisodesBySeries (reqI a.seriesId),
              Call.searchEpisodes (seasonEpisodes.map (fun e => e.id))])
        else
          ({ content := [Content.text ("No missing episodes found in season "
               ++ toString (reqI a.seasonNumber))] },
           [Call.getEpisodesBySeries (reqI a.seriesId)])
    else
      match c.searchSeriesMissing (reqI a.seriesId) with
      | Except.error e =>
        (errResult ("Failed to search for missing episodes: " ++ e.message),
         [Call.searchSeriesMissing (reqI a.seriesId)])
      | Except.ok _ =>
        ({ content := [Content.text ("Started search for missing episodes in series ID "
             ++ toString (reqI a.seriesId))] },
         [Call.searchSeriesMissing (reqI a.seriesId)])
  else
    match c.searchAllMissing with
    | Except.error e =>
      (errResult ("Failed to search for missing episodes: " ++ e.message),
       [Call.searchAllMissing])
    | Except.ok _ =>
      ({ content := [Content.text
           "Started search for all missing episodes across all series"] },
       [Call.searchAllMissing])

/-- `get_wanted` execute body (`createGetWantedTool`). -/
def getWantedExecute (c : Client) (a : Args) : ToolResult × List Call :=
  let params : PageParams := { page := jsOrI a.page 1, pageSize := jsOrI a.pageSize 20 }
  let fetched : Except ApiError (Paginated WantedEpisode) × List Call :=
    if a.type == some "cutoff" then
      (c.getWantedCutoffUnmet params, [Call.getWantedCutoffUnmet params])
    else (c.getWantedMissing params, [Call.getWantedMissing params])
  match fetched.1 with
  | Except.error e =>
    (errResult ("Failed to get wanted episodes: " ++ e.message), fetched.2)
  | Except.ok wanted =>
    ({ content := [
         Content.text ("Found " ++ toString wanted.totalRecords ++ " wanted episodes ("
           ++ jsOrS a.type "missing" ++ ") - page " ++ toString wanted.page ++ "/"
           ++ toString (ratCeil ((wanted.totalRecords : ℚ) / (wanted.pageSize : ℚ)))),
         Content.json (Jv.arr (wanted.records.map (fun item => Jv.obj [
           ("id", Jv.num (item.id : ℚ)),
           ("series", Jv.str item.series.title),
           ("episode", Jv.str (epCode item.seasonNumber item.episodeNumber
             ++ " - " ++ item.title)),
           ("airDate", optStr item.airDate),
           ("monitored", Jv.bool item.monitored)])))] },
     fetched.2)

/-- MCP tool descriptor (`SonarrTool`; the data-described `inputSchema` is not
part of the verified behavior and is omitted). -/
structure SonarrTool where
  name : String
  description : String
  execute : Client → Args → ToolResult × List Call

/-- The 14 registered tools, in registration order (`initializeTools`). -/
def tools : List SonarrTool := [
  { name := "add_series", description := "Add a new TV series to Sonarr",
    execute := addSeriesExecute },
  { name := "list_series",
    description := "List all TV series in Sonarr with optional filtering",
    execute := listSeriesExecute },
  { name := "update_series",
    description := "Update series settings like monitoring status or quality profile",
    execute := updateSeriesExecute },
  { name := "remove_series", description := "Remove a series from Sonarr",
    execute := removeSeriesExecute },
  { name := "search_series", description := "Search for series on TVDB",
    execute := searchSeriesExecute },
  { name := "list_episodes", description := "List episodes for a specific series",
    execute := listEpisodesExecute },
  { name := "search_episodes", description := "Search for specific episodes",
    execute := searchEpisodesExecute },
  { name := "monitor_episodes", description := "Toggle monitoring for episodes",
    execute := monitorEpisodesExecute },
  { name := "manage_queue", description := "View and manage the download queue",
    execute := manageQueueExecute },
  { name := "get_history", description := "Get download and import history",
    execute := getHistoryExecute },
  { name := "system_status",
    description := "Get Sonarr system status and health information",
    execute := systemStatusExecute },
  { name := "get_calendar", description := "Get upcoming episodes calendar",
    execute := getCalendarExecute },
  { name := "search_missing_episodes",
    description := "Search for missing episodes across all or specific series",
    execute := searchMissingExecute },
  { name := "get_wanted", description := "Get wanted/missing episodes",
    execute := getWantedExecute }]

/-- `executeTool(name, args)`: registry lookup, throwing `Tool not found` for
an unknown name (modelled as `Except.error`), otherwise running the tool. -/
def executeTool (c : Client) (name : String) (a : Args) :
    Except String (ToolResult × List Call) :=
  match tools.find? (fun t => t.name == name) with
  | none => Except.error ("Tool not found: " ++ name)
  | some t => Except.ok (t.execute c a)

/-- Environment clock used by the resource layer: the date-only strings of
today and today+30 days (`toISOString().split('T')[0]`), the current epoch
milliseconds, and the epoch milliseconds of a parsed date string
(`new Date(s).getTime()`).  Calendar arithmetic itself happens in the JS
runtime and is treated as an input. -/
structure Clock where
  todayStr : String
  endStr : String
  nowMs : ℚ
  dateMs : String → ℚ

/-- Per-series entry of the series-collection resource. -/
def seriesCollectionEntry (s : Series) : Jv :=
  Jv.obj [
    ("id", Jv.num (s.id : ℚ)),
    ("title", Jv.str s.title),
    ("year", Jv.num (s.year : ℚ)),
    ("status", Jv.str s.status),
    ("monitored", Jv.bool s.monitored),
    ("network", Jv.str s.network),
    ("seasonCount", Jv.num (s.seasonCount : ℚ)),
    ("episodeCount", Jv.num (s.episodeCount : ℚ)),
    ("episodeFileCount", Jv.num (s.episodeFileCount : ℚ)),
    ("sizeOnDisk", Jv.num s.sizeOnDisk),
    ("nextAiring", optStr s.nextAiring),
    ("previousAiring", optStr s.previousAiring),
    ("path", Jv.str s.path),
    ("qualityProfileId", Jv.num (s.qualityProfileId : ℚ)),
    ("genres", Jv.arr (s.genres.map Jv.str)),
    ("overview", Jv.str s.overview)]

/-- Aggregate snapshot built by the series-collection resource. -/
def seriesCollectionData (series : List Series) : Jv :=
  Jv.obj [
    ("totalSeries", Jv.num (series.length : ℚ)),
    ("monitoredSeries", Jv.num ((series.filter (fun s => s.monitored)).length : ℚ)),
    ("continuingSeries",
      Jv.num ((series.filter (fun s => s.status == "continuing")).length : ℚ)),
    ("endedSeries", Jv.num ((series.filter (fun s => s.status == "ended")).length : ℚ)),
    ("totalEpisodes",
      Jv.num ((series.foldl (fun acc s => acc + s.episodeCount) 0 : Int) : ℚ)),
    ("totalFiles",
      Jv.num ((series.foldl (fun acc s => acc + s.episodeFileCount) 0 : Int) : ℚ)),
    ("totalSizeGB",
      Jv.num ((jround ((series.foldl (fun acc s => acc + s.sizeOnDisk) 0)
        / (1024 * 1024 * 1024) * 100) : ℚ) / 100)),
    ("series", Jv.arr (series.map seriesCollectionEntry))]

/-- Snapshot built by the calendar resource. -/
def calendarData (todayStr endStr : String) (calendar : List CalendarItem) : Jv :=
  Jv.obj [
    ("dateRange", Jv.obj [("start", Jv.str todayStr), ("end", Jv.str endStr)]),
    ("totalEpisodes", Jv.num (calendar.length : ℚ)),
    ("monitoredEpisodes", Jv.num ((calendar.filter (fun e => e.monitored)).length : ℚ)),
    ("episodesWithFiles", Jv.num ((calendar.filter (fun e => e.hasFile)).length : ℚ)),
    ("episodes", Jv.arr (calendar.map (fun e => Jv.obj [
      ("id", Jv.num (e.id : ℚ)),
      ("seriesId", Jv.num (e.seriesId : ℚ)),
      ("seriesTitle", Jv.str e.series.title),
      ("episodeTitle", Jv.str e.title),
      ("seasonNumber", Jv.num (e.seasonNumber : ℚ)),
      ("episodeNumber", Jv.num (e.episodeNumber : ℚ)),
      ("airDate", Jv.str e.airDate),
      ("airDateUtc", Jv.str e.airDateUtc),
      ("hasFile", Jv.bool e.hasFile),
      ("monitored", Jv.bool e.monitored),
      ("network", Jv.str e.series.network),
      ("overview", Jv.str e.overview)])))]

/-- Per-disk entry of the system-status resource: raw bytes plus derived GB
numbers (2 decimals) and integer percent-free. -/
def systemDiskEntry (disk : DiskSpace) : Jv :=
  Jv.obj [
    ("path", Jv.str disk.path),
    ("label", Jv.str disk.label),
    ("freeSpaceBytes", Jv.num disk.freeSpace),
    ("totalSpaceBytes", Jv.num disk.totalSpace),
    ("freeSpaceGB",
      Jv.num ((jround (disk.freeSpace / (1024 * 1024 * 1024) * 100) : ℚ) / 100)),
    ("totalSpaceGB",
      Jv.num ((jround (disk.totalSpace / (1024 * 1024 * 1024) * 100) : ℚ) / 100)),
    ("percentFree", Jv.num ((jround (disk.freeSpace / disk.totalSpace * 100) : ℚ)))]

/-- Snapshot built by the system-status resource. -/
def systemStatusData (clk : Clock) (status : SystemStatus) (diskSpace : List DiskSpace) : Jv :=
  Jv.obj [
    ("version", Jv.str status.version),
    ("buildTime", Jv.str status.buildTime),
    ("startTime", Jv.str status.startTime),
    ("uptime", Jv.num (clk.nowMs - clk.dateMs status.startTime)),
    ("os", Jv.obj [
      ("name", Jv.str status.osName),
      ("version", Jv.str status.osVersion),
      ("isLinux", Jv.bool status.isLinux),
      ("isWindows", Jv.bool status.isWindows),
      ("isMac", Jv.bool status.isOsx)]),
    ("runtime", Jv.obj [
      ("name", Jv.str status.runtimeName),
      ("version", Jv.str status.runtimeVersion),
      ("isMono", Jv.bool status.isMono)]),
    ("paths", Jv.obj [
      ("startupPath", Jv.str status.startupPath),
      ("appData", Jv.str status.appData),
      ("urlBase", Jv.str status.urlBase)]),
    ("database", Jv.obj [
      ("sqliteVersion", Jv.str status.sqliteVersion),
      ("migrationVersion", Jv.num (status.migrationVersion : ℚ))]),
    ("diskSpace", Jv.arr (diskSpace.map systemDiskEntry)),
    ("authentication", Jv.str status.authentication),
    ("isDebug", Jv.bool status.isDebug),
    ("isProduction", Jv.bool status.isProduction),
    ("branch", Jv.str status.branch)]

/-- Per-item entry of the queue resource: progress is always a number —
`round((1 - sizeleft/size) * 100)` when the size is positive, `0` otherwise. -/
def queueResourceItem (item : QueueItem) : Jv :=
  Jv.obj [
    ("id", Jv.num (item.id : ℚ)),
    ("title", Jv.str item.title),
    ("series", Jv.obj [
      ("id", Jv.num (item.series.id : ℚ)),
      ("title", Jv.str item.series.title)]),
    ("episode", Jv.obj [
      ("id", Jv.num (item.episode.id : ℚ)),
      ("title", Jv.str item.episode.title),
      ("seasonNumber", Jv.num (item.episode.seasonNumber : ℚ)),
      ("episodeNumber", Jv.num (item.episode.episodeNumber : ℚ))]),
    ("quality", Jv.obj [
      ("name", Jv.str item.quality.quality.name),
      ("source", Jv.str item.quality.quality.source)]),
    ("size", Jv.num item.size),
    ("sizeLeft", Jv.num item.sizeleft),
    ("status", Jv.str item.status),
    ("trackedDownloadStatus", Jv.str item.trackedDownloadStatus),
    ("trackedDownloadState", Jv.str item.trackedDownloadState),
    ("progress", Jv.num (if 0 < item.size then
        (jround ((1 - item.sizeleft / item.size) * 100) : ℚ)
      else 0)),
    ("timeLeft", optStr item.timeleft),
    ("estimatedCompletionTime", optStr item.estimatedCompletionTime),
    ("protocol", Jv.str item.protocol),
    ("downloadClient", Jv.str item.downloadClient),
    ("indexer", Jv.str item.indexer),
    ("downloadId", Jv.str item.downloadId),
    ("errorMessage", optStr item.errorMessage),
    ("statusMessages", Jv.arr (item.statusMessages.map (fun m => Jv.obj [
      ("title", Jv.str m.title),
      ("messages", Jv.arr (m.messages.map Jv.str))])))]

/-- Snapshot built by the queue resource. -/
def queueResourceData (queue : Paginated QueueItem) : Jv :=
  Jv.obj [
    ("totalItems", Jv.num (queue.totalRecords : ℚ)),
    ("totalPages",
      Jv.num ((ratCeil ((queue.totalRecords : ℚ) / (queue.pageSize : ℚ)) : ℚ))),
    ("items", Jv.arr (queue.records.map queueResourceItem))]

/-- Snapshot built by the history resource. -/
def historyResourceData (history : Paginated HistoryItem) : Jv :=
  Jv.obj [
    ("totalItems", Jv.num (history.totalRecords : ℚ)),
    ("items", Jv.arr (history.records.map (fun item => Jv.obj [
      ("id", Jv.num (item.id : ℚ)),
      ("eventType", Jv.str item.eventType),
      ("date", Jv.str item.date),
      ("series", Jv.obj [
        ("id", Jv.num (item.series.id : ℚ)),
        ("title", Jv.str item.series.title)]),
      ("episode", Jv.obj [
        ("id", Jv.num (item.episode.id : ℚ)),
        ("title", Jv.str item.episode.title),
        ("seasonNumber", Jv.num (item.episode.seasonNumber : ℚ)),
        ("episodeNumber", Jv.num (item.episode.episodeNumber : ℚ))]),
      ("quality", Jv.obj [
        ("name", Jv.str item.quality.quality.name),
        ("source", Jv.str item.quality.quality.source)]),
      ("sourceTitle", Jv.str item.sourceTitle),
      ("downloadId", optStr item.downloadId),
      ("customFormats", Jv.arr (item.customFormats.map (fun cf => Jv.str cf.name))),
      ("qualityCutoffNotMet", Jv.bool item.qualityCutoffNotMet),
      ("customFormatScore", Jv.num (item.customFormatScore : ℚ)),
      ("data", Jv.obj (item.data.map (fun p => (p.1, Jv.str p.2))))])))]

/-- Snapshot built by the wanted-episodes resource. -/
def wantedResourceData (wanted : Paginated WantedEpisode) : Jv :=
  Jv.obj [
    ("totalMissing", Jv.num (wanted.totalRecords : ℚ)),
    ("episodes", Jv.arr (wanted.records.map (fun episode => Jv.obj [
      ("id", Jv.num (episode.id : ℚ)),
      ("seriesId", Jv.num (episode.seriesId : ℚ)),
      ("seriesTitle", Jv.str episode.series.title),
      ("episodeTitle", Jv.str episode.title),
      ("seasonNumber", Jv.num (episode.seasonNumber : ℚ)),
      ("episodeNumber", Jv.num (episode.episodeNumber : ℚ)),
      ("airDate", optStr episode.airDate),
      ("airDateUtc", optStr episode.airDateUtc),
      ("monitored", Jv.bool episode.monitored),
      ("hasFile", Jv.bool episode.hasFile),
      ("overview", Jv.str episode.overview)])))]

/-- Serialized quality descriptor, or `null` when absent. -/
def qualityJvOpt (q : Option Quality) : Jv :=
  match q with
  | some quality => Jv.obj [
      ("id", Jv.num (quality.id : ℚ)),
      ("name", Jv.str quality.name),
      ("source", Jv.str quality.source),
      ("resolution", Jv.num (quality.resolution : ℚ))]
  | none => Jv.null

/-- Sub-item entry of the quality-profiles resource (nested groups are
serialized one level deep only). -/
def qpSubItemJv (subItem : QualityProfileItem) : Jv :=
  Jv.obj [
    ("quality", qualityJvOpt subItem.quality),
    ("allowed", Jv.bool subItem.allowed)]

/-- Item entry of the quality-profiles resource. -/
def qpItemJv (item : QualityProfileItem) : Jv :=
  Jv.obj [
    ("quality", qualityJvOpt item.quality),
    ("allowed", Jv.bool item.allowed),
    ("items", match item.items with
      | some xs => Jv.arr (xs.map qpSubItemJv)
      | none => Jv.null)]

/-- Snapshot built by the quality-profiles resource. -/
def qualityProfilesData (profiles : List QualityProfile) : Jv :=
  Jv.obj [
    ("totalProfiles", Jv.num (profiles.length : ℚ)),
    ("profiles", Jv.arr (profiles.map (fun profile => Jv.obj [
      ("id", Jv.num (profile.id : ℚ)),
      ("name", Jv.str profile.name),
      ("upgradeAllowed", Jv.bool profile.upgradeAllowed),
      ("cutoff", Jv.num (profile.cutoff : ℚ)),
      ("items", Jv.arr (profile.items.map qpItemJv))])))]

/-- Per-folder entry of the root-folders resource. -/
def rootFolderEntry (folder : RootFolder) : Jv :=
  Jv.obj [
    ("id", Jv.num (folder.id : ℚ)),
    ("path", Jv.str folder.path),
    ("accessible", Jv.bool folder.accessible),
    ("freeSpaceBytes", Jv.num folder.freeSpace),
    ("freeSpaceGB",
      Jv.num ((jround (folder.freeSpace / (1024 * 1024 * 1024) * 100) : ℚ) / 100)),
    ("unmappedFolders", Jv.arr (folder.unmappedFolders.map (fun uf => Jv.obj [
      ("name", Jv.str uf.name),
      ("path", Jv.str uf.path)])))]

/-- Snapshot built by the root-folders resource. -/
def rootFoldersData (rootFolders : List RootFolder) : Jv :=
  Jv.obj [
    ("totalFolders", Jv.num (rootFolders.length : ℚ)),
    ("folders", Jv.arr (rootFolders.map rootFolderEntry))]

/-- MCP resource descriptor.  `read` returns the structured snapshot whose
pretty-printed serialization is the resource text; any underlying fetch
failure is re-thrown (modelled as `Except.error`) wrapped in a
`Failed to read {label}` message. -/
structure SonarrResource where
  uri : String
  name : String
  description : String
  mimeType : String
  read : Client → Clock → Except String Jv

/-- Read body of the series-collection resource. -/
def seriesCollectionRead (c : Client) (_ : Clock) : Except String Jv :=
  match c.getSeries with
  | Except.error e => Except.error ("Failed to read series collection: " ++ e.message)
  | Except.ok series => Except.ok (seriesCollectionData series)

/-- Read body of the calendar resource (fixed 30-day forward window). -/
def calendarRead (c : Client) (clk : Clock) : Except String Jv :=
  match c.getCalendar (some clk.todayStr) (some clk.endStr) false with
  | Except.error e => Except.error ("Failed to read calendar: " ++ e.message)
  | Except.ok calendar => Except.ok (calendarData clk.todayStr clk.endStr calendar)

/-- Read body of the system-status resource (status and disk space fetched
jointly). -/
def systemStatusRead (c : Client) (clk : Clock) : Except String Jv :=
  match c.getSystemStatus, c.getDiskSpace with
  | Except.error e, _ => Except.error ("Failed to read system status: " ++ e.message)
  | _, Except.error e => Except.error ("Failed to read system status: " ++ e.message)
  | Except.ok status, Except.ok diskSpace =>
    Except.ok (systemStatusData clk status diskSpace)

/-- Read body of the queue resource. -/
def queueRead (c : Client) (_ : Clock) : Except String Jv :=
  match c.getQueue (some (QueueParams.mk 1 100 true true)) with
  | Except.error e => Except.error ("Failed to read queue: " ++ e.message)
  | Except.ok queue => Except.ok (queueResourceData queue)

/-- Read body of the history resource. -/
def historyRead (c : Client) (_ : Clock) : Except String Jv :=
  match c.getHistory (HistoryParams.mk 1 50 none none true true) with
  | Except.error e => Except.error ("Failed to read history: " ++ e.message)
  | Except.ok history => Except.ok (historyResourceData history)

/-- Read body of the wanted-episodes resource. -/
def wantedRead (c : Client) (_ : Clock) : Except String Jv :=
  match c.getWantedMissing { page := 1, pageSize := 100 } with
  | Except.error e => Except.error ("Failed to read wanted episodes: " ++ e.message)
  | Except.ok wanted => Except.ok (wantedResourceData wanted)

/-- Read body of the quality-profiles resource. -/
def qualityProfilesRead (c : Client) (_ : Clock) : Except String Jv :=
  match c.getQualityProfiles with
  | Except.error e => Except.error ("Failed to read quality profiles: " ++ e.message)
  | Except.ok profiles => Except.ok (qualityProfilesData profiles)

/-- Read body of the root-folders resource. -/
def rootFoldersRead (c : Client) (_ : Clock) : Except String Jv :=
  match c.getRootFolders with
  | Except.error e => Except.error ("Failed to read root folders: " ++ e.message)
  | Except.ok rootFolders => Except.ok (rootFoldersData rootFolders)

/-- The 8 registered resources, in registration order (`initializeResources`). -/
def resources : List SonarrResource := [
  { uri := "sonarr://series/collection", name := "TV Series Collection",
    description := "Complete list of series in Sonarr with metadata and statistics",
    mimeType := "application/json", read := seriesCollectionRead },
  { uri := "sonarr://calendar/upcoming", name := "Upcoming Episodes",
    description := "Calendar view of upcoming episodes and air dates for the next 30 days",
    mimeType := "application/json", read := calendarRead },
  { uri := "sonarr://system/status", name := "Sonarr System Status",
    description := "Health, disk space, and system information",
    mimeType := "application/json", read := systemStatusRead },
  { uri := "sonarr://queue/current", name := "Download Queue",
    description := "Current download queue with progress and status information",
    mimeType := "application/json", read := queueRead },
  { uri := "sonarr://history/recent", name := "Recent History",
    description := "Recent download and import history (last 50 items)",
    mimeType := "application/json", read := historyRead },
  { uri := "sonarr://wanted/missing", name := "Wanted Episodes",
    description := "Missing episodes that are being monitored",
    mimeType := "application/json", read := wantedRead },
  { uri := "sonarr://config/quality-profiles", name := "Quality Profiles",
    description := "Available quality profiles and their configurations",
    mimeType := "application/json", read := qualityProfilesRead },
  { uri := "sonarr://config/root-folders", name := "Root Folders",
    description := "Configured root folders for series storage",
    mimeType := "application/json", read := rootFoldersRead }]

/-- Label used in each resource's wrapped fetch-failure message. -/
def resourceLabel (uri : String) : String :=
  if uri == "sonarr://series/collection" then "series collection"
  else if uri == "sonarr://calendar/upcoming" then "calendar"
  else if uri == "sonarr://system/status" then "system status"
  else if uri == "sonarr://queue/current" then "queue"
  else if uri == "sonarr://history/recent" then "history"
  else if uri == "sonarr://wanted/missing" then "wanted episodes"
  else if uri == "sonarr://config/quality-profiles" then "quality profiles"
  else "root folders"

/-- `readResource(uri)`: registry lookup, throwing `Resource not found` for an
unknown URI (modelled as `Except.error`), otherwise reading the resource. -/
def readResource (c : Client) (clk : Clock) (uri : String) : Except String Jv :=
  match resources.find? (fun r => r.uri == uri) with
  | none => Except.error ("Resource not found: " ++ uri)
  | some r => r.read c clk

/-- Retryable errors (no status code, or server status ≥ 500) do not trip the
no-retry guard. -/
lemma clientNoRetry_eq_false {e : ApiError}
    (h : e.statusCode = none ∨ ∃ s, e.statusCode = some s ∧ 500 ≤ s) :
    clientNoRetry e = false := by
  rcases h with h | ⟨s, hs, hge⟩
  · simp [clientNoRetry, h]
  · simp [clientNoRetry, hs]
    omega

/-- The loop performs at most `rem + 1` invocations. -/
lemma retryGo_count_le {α : Type} (op : Nat → Except ApiError α) :
    ∀ rem attempt, (retryGo op attempt rem).2.1 ≤ rem + 1 := by
  intro rem
  induction rem with
  | zero =>
    intro attempt
    cases h : op attempt <;> simp [retryGo, h]
  | succ n ih =>
    intro attempt
    cases h : op attempt with
    | ok v => simp [retryGo, h]
    | error e =>
      by_cases hc : clientNoRetry e
      · simp [retryGo, h, hc]
      · have := ih (attempt + 1)
        simp only [retryGo, h, hc, Bool.false_eq_true, if_false]
        omega

/-- If the first `k` attempts fail retryably and attempt `k` (0-based)
succeeds, the loop returns the success after exactly `k + 1` invocations with
one backoff per failed attempt. -/
lemma retryGo_success {α : Type} (op : Nat → Except ApiError α) (v : α) :
    ∀ k attempt rem, k ≤ rem →
      (∀ i, i < k → ∃ e, op (attempt + i) = Except.error e ∧ clientNoRetry e = false) →
      op (attempt + k) = Except.ok v →
      retryGo op attempt rem =
        (Except.ok v, k + 1, (List.range k).map (fun i => backoffDelay (attempt + i))) := by
  intro k
  induction k with
  | zero =>
    intro attempt rem _ _ hok
    rw [Nat.add_zero] at hok
    cases rem <;> simp [retryGo, hok]
  | succ k ih =>
    intro attempt rem hle hfail hok
    obtain ⟨e, he, hce⟩ := hfail 0 (Nat.succ_pos k)
    rw [Nat.add_zero] at he
    obtain ⟨rem', rfl⟩ : ∃ r, rem = r + 1 := ⟨rem - 1, by omega⟩
    have hrec := ih (attempt + 1) rem' (by omega)
      (fun i hi => by
        have h' := hfail (i + 1) (by omega)
        rwa [show attempt + (i + 1) = attempt + 1 + i by omega] at h')
      (by rwa [show attempt + (k + 1) = attempt + 1 + k by omega] at hok)
    simp only [retryGo, he, hce, Bool.false_eq_true, if_false, hrec]
    refine Prod.ext rfl (Prod.ext rfl ?_)
    simp only [List.range_succ_eq_map, List.map_cons, List.map_map]
    refine congrArg₂ List.cons (by rw [Nat.add_zero]) ?_
    apply List.map_congr_left
    intro i _
    simp only [Function.comp_apply]
    congr 1
    omega

/-- If the first `j` attempts fail retryably and attempt `j` fails with either
a no-retry (client) error or the budget exhausted, the loop stops there and
propagates that error after exactly `j + 1` invocations. -/
lemma retryGo_error {α : Type} (op : Nat → Except ApiError α) (e : ApiError) :
    ∀ j attempt rem, j ≤ rem →
      (∀ i, i < j → ∃ e', op (attempt + i) = Except.error e' ∧ clientNoRetry e' = false) →
      op (attempt + j) = Except.error e →
      (clientNoRetry e = true ∨ j = rem) →
      (retryGo op attempt rem).1 = Except.error e ∧
      (retryGo op attempt rem).2.1 = j + 1 := by
  intro j
  induction j with
  | zero =>
    intro attempt rem _ _ he hstop
    rw [Nat.add_zero] at he
    rcases hstop with hc | rfl
    · cases rem <;> simp [retryGo, he, hc]
    · simp [retryGo, he]
  | succ j ih =>
    intro attempt rem hle hfail he hstop
    obtain ⟨e0, he0, hc0⟩ := hfail 0 (Nat.succ_pos j)
    rw [Nat.add_zero] at he0
    obtain ⟨rem', rfl⟩ : ∃ r, rem = r + 1 := ⟨rem - 1, by omega⟩
    have hrec := ih (attempt + 1) rem' (by omega)
      (fun i hi => by
        have h' := hfail (i + 1) (by omega)
        rwa [show attempt + (i + 1) = attempt + 1 + i by omega] at h')
      (by rwa [show attempt + (j + 1) = attempt + 1 + j by omega] at he)
      (by rcases hstop with hc | hj
          · exact Or.inl hc
          · exact Or.inr (by omega))
    simp only [retryGo, he0, hc0, Bool.false_eq_true, if_false]
    exact ⟨hrec.1, by simp only [hrec.2]⟩

/-- C1: `executeWithRetry` invokes the operation at most `retries + 1` times;
and whenever the first `k ≤ retries` attempts fail retryably (no status code,
or status ≥ 500) and attempt `k` (0-based) succeeds with `v`, it resolves with
`v` after exactly `k + 1` invocations, sleeping
`min(1000 * 2^i, 10000)` ms after the `(i+1)`-th failed invocation (element
`i` of the delay list is the backoff before invocation `i + 2`, so the delay
before the `(k+1)`-th invocation is `min(1000 * 2^(k-1), 10000)`:
1s, 2s, 4s, 8s, capped at 10s). -/
theorem executeWithRetry_success_and_backoff :
    (∀ (α : Type) (op : Nat → Except ApiError α) (retries : Nat),
        (executeWithRetry op retries).2.1 ≤ retries + 1) ∧
    (∀ (α : Type) (op : Nat → Except ApiError α) (retries k : Nat) (v : α),
        k ≤ retries →
        (∀ i, i < k → ∃ e, op i = Except.error e ∧
          (e.statusCode = none ∨ ∃ s, e.statusCode = some s ∧ 500 ≤ s)) →
        op k = Except.ok v →
        executeWithRetry op retries =
          (Except.ok v, k + 1,
            (List.range k).map (fun i => min (1000 * 2 ^ i) 10000))) := by
  constructor
  · intro α op retries
    exact retryGo_count_le op retries 0
  · intro α op retries k v hk hfail hok
    have h := retryGo_success op v k 0 retries hk
      (fun i hi => by
        obtain ⟨e, he, hr⟩ := hfail i hi
        exact ⟨e, by simpa using he, clientNoRetry_eq_false hr⟩)
      (by simpa using hok)
    rw [executeWithRetry, h]
    simp [backoffDelay]

/-- Concrete run backing C1: an operation that fails twice with HTTP 503 and
then succeeds is invoked 3 times under a budget of 3 retries, resolves with
the success value, and sleeps 1000 ms then 2000 ms. -/
def opSucceedsAt2 : Nat → Except ApiError Nat := fun i =>
  if i < 2 then Except.error { message := "server busy", statusCode := some 503 }
  else Except.ok 42

/-- Witness for C1 at a concrete operation and budget. -/
theorem executeWithRetry_success_and_backoff_witness :
    (executeWithRetry opSucceedsAt2 3).2.1 ≤ 4 ∧
    executeWithRetry opSucceedsAt2 3 = (Except.ok 42, 3, [1000, 2000]) := by
  refine ⟨executeWithRetry_success_and_backoff.1 Nat opSucceedsAt2 3, ?_⟩
  have h := executeWithRetry_success_and_backoff.2 Nat opSucceedsAt2 3 2 42
    (by omega)
    (fun i hi => ⟨{ message := "server busy", statusCode := some 503 },
      by simp [opSucceedsAt2, hi], Or.inr ⟨503, rfl, by omega⟩⟩)
    rfl
  exact h.trans rfl

/-- C2: a failure with a status code in `[400, 500)` stops the retry sequence
immediately (the `j`-th attempt's client error propagates unchanged after
exactly `j + 1` invocations, however much budget remains); and when all
`retries + 1` attempts fail, the last attempt's error propagates unchanged. -/
theorem executeWithRetry_client_error_no_retry :
    (∀ (α : Type) (op : Nat → Except ApiError α) (retries j : Nat) (e : ApiError),
        j ≤ retries →
        (∀ i, i < j → ∃ e', op i = Except.error e' ∧
          (e'.statusCode = none ∨ ∃ s, e'.statusCode = some s ∧ 500 ≤ s)) →
        op j = Except.error e →
        (∃ s, e.statusCode = some s ∧ 400 ≤ s ∧ s < 500) →
        (executeWithRetry op retries).1 = Except.error e ∧
        (executeWithRetry op retries).2.1 = j + 1) ∧
    (∀ (α : Type) (op : Nat → Except ApiError α) (retries : Nat) (es : Nat → ApiError),
        (∀ i, i ≤ retries → op i = Except.error (es i)) →
        (∀ i, i < retries → (es i).statusCode = none ∨
          ∃ s, (es i).statusCode = some s ∧ 500 ≤ s) →
        (executeWithRetry op retries).1 = Except.error (es retries) ∧
        (executeWithRetry op retries).2.1 = retries + 1) := by
  constructor
  · intro α op retries j e hj hfail he ⟨s, hs, h4, h5⟩
    refine retryGo_error op e j 0 retries hj
      (fun i hi => by
        obtain ⟨e', he', hr⟩ := hfail i hi
        exact ⟨e', by simpa using he', clientNoRetry_eq_false hr⟩)
      (by simpa using he)
      (Or.inl ?_)
    simp [clientNoRetry, hs]
    omega
  · intro α op retries es hall hretry
    exact retryGo_error op (es retries) retries 0 retries (le_refl retries)
      (fun i hi => ⟨es i, by simpa using hall i (by omega),
        clientNoRetry_eq_false (hretry i hi)⟩)
      (by simpa using hall retries (le_refl retries))
      (Or.inr rfl)

/-- Concrete run backing C2's fail-fast clause: every attempt would fail with
HTTP 404. -/
def opClientErr : Nat → Except ApiError Nat := fun _ =>
  Except.error { message := "not found", statusCode := some 404 }

/-- Concrete run backing C2's exhaustion clause: every attempt fails with
HTTP 500. -/
def opServerErr : Nat → Except ApiError Nat := fun i =>
  Except.error { message := "boom " ++ toString i, statusCode := some 500 }

/-- Witness for C2 at concrete operations: the 404 stops retrying after one
invocation under a budget of 3, and three 500-failures under a budget of 2
propagate the final error after 3 invocations. -/
theorem executeWithRetry_client_error_no_retry_witness :
    ((executeWithRetry opClientErr 3).1 =
        Except.error { message := "not found", statusCode := some 404 } ∧
      (executeWithRetry opClientErr 3).2.1 = 1) ∧
    ((executeWithRetry opServerErr 2).1 =
        Except.error { message := "boom 2", statusCode := some 500 } ∧
      (executeWithRetry opServerErr 2).2.1 = 3) := by
  constructor
  · have h := executeWithRetry_client_error_no_retry.1 Nat opClientErr 3 0
      { message := "not found", statusCode := some 404 }
      (by omega) (by omega) rfl ⟨404, rfl, by omega, by omega⟩
    simpa using h
  · have h := executeWithRetry_client_error_no_retry.2 Nat opServerErr 2
      (fun i => { message := "boom " ++ toString i, statusCode := some 500 })
      (fun i _ => rfl)
      (fun i _ => Or.inr ⟨500, rfl, by omega⟩)
    simpa using h

/-- C3: an unknown tool name throws `Tool not found: {name}` and an unknown
resource URI throws `Resource not found: {uri}` (neither is an in-band
`isError` result); every registered resource re-throws an underlying fetch
failure as `Failed to read {resourceLabel}: {message}`; and every registered
tool's execution returns in-band through the dispatcher — in particular an
underlying fetch failure comes back as a `ToolResult` with `isError = true`
rather than a thrown error. -/
theorem dispatch_and_error_boundaries :
    (∀ (name : String), name ∉ tools.map SonarrTool.name →
       ∀ (c : Client) (a : Args),
         executeTool c name a = Except.error ("Tool not found: " ++ name)) ∧
    (∀ (uri : String), uri ∉ resources.map SonarrResource.uri →
       ∀ (c : Client) (clk : Clock),
         readResource c clk uri = Except.error ("Resource not found: " ++ uri)) ∧
    (∀ r ∈ resources, ∀ (clk : Clock) (e : ApiError),
       readResource (failingClient e) clk r.uri =
         Except.error ("Failed to read " ++ resourceLabel r.uri ++ ": " ++ e.message)) ∧
    (∀ t ∈ tools, ∀ (c : Client) (a : Args),
       executeTool c t.name a = Except.ok (t.execute c a)) ∧
    (∀ t ∈ tools, ∀ (a : Args) (e : ApiError),
       ((t.execute (failingClient e) a).1).isError = true) := by
  refine ⟨?_, ?_, ?_, ?_, ?_⟩
  · intro name hname c a
    have hf : tools.find? (fun t => t.name == name) = none := by
      rw [List.find?_eq_none]
      intro t ht
      simp only [beq_iff_eq]
      intro hEq
      exact hname (hEq ▸ List.mem_map_of_mem SonarrTool.name ht)
    simp [executeTool, hf]
  · intro uri huri c clk
    have hf : resources.find? (fun r => r.uri == uri) = none := by
      rw [List.find?_eq_none]
      intro r hr
      simp only [beq_iff_eq]
      intro hEq
      exact huri (hEq ▸ List.mem_map_of_mem SonarrResource.uri hr)
    simp [readResource, hf]
  · intro r hr clk e
    simp only [resources, List.mem_cons, List.not_mem_nil, or_false] at hr
    rcases hr with rfl | rfl | rfl | rfl | rfl | rfl | rfl | rfl <;> rfl
  · intro t ht c a
    simp only [tools, List.mem_cons, List.not_mem_nil, or_false] at ht
    rcases ht with rfl | rfl | rfl | rfl | rfl | rfl | rfl | rfl | rfl | rfl | rfl |
      rfl | rfl | rfl <;> rfl
  · intro t ht a e
    simp only [tools, List.mem_cons, List.not_mem_nil, or_false] at ht
    rcases ht with rfl | rfl | rfl | rfl | rfl | rfl | rfl | rfl | rfl | rfl | rfl |
      rfl | rfl | rfl
    · rfl
    · rfl
    · rfl
    · rfl
    · rfl
    · rfl
    · rfl
    · cases h : a.episodeIds with
      | nil => simp [monitorEpisodesExecute, monitorFetch, failingClient, h, errResult]
      | cons id ids => simp [monitorEpisodesExecute, monitorFetch, failingClient, h, errResult]
    · by_cases h1 : a.action = "list"
      · simp [manageQueueExecute, h1, failingClient, errResult]
      · by_cases h2 : (a.action == "remove" && truthyI a.queueId) = true
        · simp [manageQueueExecute, beq_iff_eq, h1, h2, failingClient, errResult]
        · simp [manageQueueExecute, beq_iff_eq, h1, h2, errResult]
    · rfl
    · rfl
    · rfl
    · by_cases h1 : truthyI a.seriesId = true
      · by_cases h2 : truthyI a.seasonNumber = true
        · simp [searchMissingExecute, h1, h2, failingClient, errResult]
        · simp [searchMissingExecute, h1, h2, failingClient, errResult]
      · simp [searchMissingExecute, h1, failingClient, errResult]
    · by_cases h1 : a.type = some "cutoff"
      · simp [getWantedExecute, h1, failingClient, errResult]
      · simp [getWantedExecute, h1, failingClient, errResult]

/-- Concrete clock for witness runs. -/
def clkEx : Clock :=
  { todayStr := "2026-10-11", endStr := "2026-11-10", nowMs := 0, dateMs := fun _ => 0 }

/-- Concrete wrapped error for witness runs. -/
def errEx : ApiError := { message := "boom", statusCode := none }

/-- Witness for C3 at concrete inputs: an unknown tool and resource, the
series-collection resource under a failing client, and the `add_series` tool
under a failing client. -/
theorem dispatch_and_error_boundaries_witness :
    executeTool (failingClient errEx) "unknown_tool" {} =
      Except.error "Tool not found: unknown_tool" ∧
    readResource (failingClient errEx) clkEx "sonarr://unknown/resource" =
      Except.error "Resource not found: sonarr://unknown/resource" ∧
    readResource (failingClient errEx) clkEx "sonarr://series/collection" =
      Except.error "Failed to read series collection: boom" ∧
    executeTool (failingClient errEx) "add_series" {} =
      Except.ok (addSeriesExecute (failingClient errEx) {}) ∧
    ((addSeriesExecute (failingClient errEx) {}).1).isError = true := by
  refine ⟨?_, ?_, ?_, ?_, ?_⟩
  · have h := dispatch_and_error_boundaries.1 "unknown_tool"
      (by simp [tools]) (failingClient errEx) {}
    simpa using h
  · have h := dispatch_and_error_boundaries.2.1 "sonarr://unknown/resource"
      (by simp [resources]) (failingClient errEx) clkEx
    simpa using h
  · have h := dispatch_and_error_boundaries.2.2.1
      { uri := "sonarr://series/collection", name := "TV Series Collection",
        description := "Complete list of series in Sonarr with metadata and statistics",
        mimeType := "application/json", read := seriesCollectionRead }
      (by simp [resources]) clkEx errEx
    simpa [resourceLabel, errEx] using h
  · have h := dispatch_and_error_boundaries.2.2.2.1
      { name := "add_series", description := "Add a new TV series to Sonarr",
        execute := addSeriesExecute }
      (by simp [tools]) (failingClient errEx) {}
    simpa using h
  · have h := dispatch_and_error_boundaries.2.2.2.2
      { name := "add_series", description := "Add a new TV series to Sonarr",
        execute := addSeriesExecute }
      (by simp [tools]) {} errEx
    simpa using h

/-- Projection of a trace entry onto an add-series request body. -/
def addPayload : Call → Option AddSeriesPayload
  | Call.addSeries p => some p
  | _ => none

/-- Default language profile id picked by `add_series`
(`languageProfiles[0]?.id || 1`). -/
def langDefault (lps : List LanguageProfile) : Int :=
  match lps with
  | [] => 1
  | lp :: _ => if lp.id == 0 then 1 else lp.id

/-- C4: `add_series` fails in-band with `No series found matching` and issues
no add-series call when the search returns nothing; fails in-band listing all
profile names (and issues no add-series call) when the quality-profile
argument neither parses as an integer nor matches a profile name
case-insensitively; and on the success path issues a single add-series call
whose body carries the parsed integer profile id directly, `monitored = true`,
and the defaults `seasonFolder = true`, `addOptions.monitor = "all"`,
`addOptions.searchForMissingEpisodes = false` when those arguments are
omitted. -/
theorem add_series_guards_and_defaults :
    (∀ (c : Client) (a : Args),
       c.searchSeries a.query = Except.ok [] →
       addSeriesExecute c a =
         ({ content := [Content.text ("No series found matching \"" ++ a.query ++ "\"")],
            isError := true }, [Call.searchSeries a.query]) ∧
       ∀ p, Call.addSeries p ∉ (addSeriesExecute c a).2) ∧
    (∀ (c : Client) (a : Args) (sd : TvdbSearchResult) (rest : List TvdbSearchResult)
       (qps : List QualityProfile),
       c.searchSeries a.query = Except.ok (sd :: rest) →
       c.getQualityProfiles = Except.ok qps →
       jsParseInt a.qualityProfile = none →
       qps.find? (fun p => jsToLower p.name == jsToLower a.qualityProfile) = none →
       addSeriesExecute c a =
         ({ content := [Content.text ("Quality profile \"" ++ a.qualityProfile
              ++ "\" not found. Available profiles: "
              ++ String.intercalate ", " (qps.map (fun p => p.name)))],
            isError := true },
          [Call.searchSeries a.query, Call.getQualityProfiles]) ∧
       ∀ p, Call.addSeries p ∉ (addSeriesExecute c a).2) ∧
    (∀ (c : Client) (a : Args) (sd : TvdbSearchResult) (rest : List TvdbSearchResult)
       (qps : List QualityProfile) (lps : List LanguageProfile) (added : Series) (n : Int),
       c.searchSeries a.query = Except.ok (sd :: rest) →
       c.getQualityProfiles = Except.ok qps →
       jsParseInt a.qualityProfile = some n →
       c.getLanguageProfiles = Except.ok lps →
       (∀ p, c.addSeries p = Except.ok added) →
       a.monitor = none → a.seasonFolder = none → a.searchForMissingEpisodes = none →
       ∃ payload,
         (addSeriesExecute c a).2.filterMap addPayload = [payload] ∧
         payload.qualityProfileId = n ∧
         payload.monitored = true ∧
         payload.seasonFolder = true ∧
         payload.addOptions.monitor = "all" ∧
         payload.addOptions.searchForMissingEpisodes = false ∧
         ((addSeriesExecute c a).1).isError = false) := by
  refine ⟨?_, ?_, ?_⟩
  · intro c a hss
    have h : addSeriesExecute c a =
        ({ content := [Content.text ("No series found matching \"" ++ a.query ++ "\"")],
           isError := true }, [Call.searchSeries a.query]) := by
      simp [addSeriesExecute, hss]
    refine ⟨h, ?_⟩
    intro p
    rw [h]
    simp
  · intro c a sd rest qps hss hqp hpi hfind
    have h : addSeriesExecute c a =
        ({ content := [Content.text ("Quality profile \"" ++ a.qualityProfile
             ++ "\" not found. Available profiles: "
             ++ String.intercalate ", " (qps.map (fun p => p.name)))],
           isError := true },
         [Call.searchSeries a.query, Call.getQualityProfiles]) := by
      simp [addSeriesExecute, hss, hqp, hpi, hfind]
    refine ⟨h, ?_⟩
    intro p
    rw [h]
    simp
  · intro c a sd rest qps lps added n hss hqp hpi hlp hadd hm hsf hsfm
    refine ⟨AddSeriesPayload.mk sd.title sd.titleSlug sd.tvdbId n (langDefault lps)
      a.rootFolder true true (AddOptions.mk "all" false), ?_⟩
    have h : addSeriesExecute c a =
        ({ content := [
             Content.text ("Successfully added series: " ++ added.title
               ++ " (" ++ toString added.year ++ ")"),
             Content.json (Jv.obj [
               ("id", Jv.num (added.id : ℚ)),
               ("title", Jv.str added.title),
               ("year", Jv.num (added.year : ℚ)),
               ("path", Jv.str added.path),
               ("monitored", Jv.bool added.monitored),
               ("seasonCount", Jv.num (added.seasonCount : ℚ))])] },
         [Call.searchSeries a.query, Call.getQualityProfiles,
          Call.getLanguageProfiles,
          Call.addSeries (AddSeriesPayload.mk sd.title sd.titleSlug sd.tvdbId n
            (langDefault lps) a.rootFolder true true (AddOptions.mk "all" false))]) := by
      simp [addSeriesExecute, hss, hqp, hpi, hlp, hadd, hm, hsf, hsfm, jsOrS, jsOrB,
        langDefault]
    rw [h]
    simp [addPayload, List.filterMap]

/-- Concrete search result for witness runs. -/
def sdEx : TvdbSearchResult :=
  { tvdbId := 81189, title := "Breaking Bad", titleSlug := "breaking-bad",
    year := some 2008, network := some "AMC", overview := some "A chemistry teacher" }

/-- Concrete quality profile for witness runs. -/
def qpEx : QualityProfile :=
  { id := 7, name := "HD-1080p", upgradeAllowed := true, cutoff := 9, items := [] }

/-- Concrete language profile for witness runs. -/
def lpEx : LanguageProfile := { id := 1, name := "English" }

/-- Concrete created series for witness runs. -/
def addedEx : Series :=
  { id := 10, title := "Breaking Bad", titleSlug := "breaking-bad", year := 2008,
    status := "ended", overview := "", network := "AMC", path := "/tv/Breaking Bad",
    monitored := true, seasonCount := 5, episodeCount := 62, episodeFileCount := 0,
    sizeOnDisk := 0, qualityProfileId := 7, previousAiring := none, nextAiring := none,
    genres := [] }

/-- Client for the `add_series` success and profile-mismatch runs. -/
def cAddEx : Client :=
  { failingClient errEx with
    searchSeries := fun _ => Except.ok [sdEx],
    getQualityProfiles := Except.ok [qpEx],
    getLanguageProfiles := Except.ok [lpEx],
    addSeries := fun _ => Except.ok addedEx }

/-- Client whose series search finds nothing. -/
def cEmptySearch : Client :=
  { failingClient errEx with searchSeries := fun _ => Except.ok [] }

/-- Witness for C4 at concrete inputs: an empty search, an unresolvable
profile name, and a successful add with the profile given as the integer 5
and all defaultable arguments omitted. -/
theorem add_series_guards_and_defaults_witness :
    addSeriesExecute cEmptySearch
        { query := "Breaking Bad", rootFolder := "/tv", qualityProfile := "HD-1080p" } =
      ({ content := [Content.text "No series found matching \"Breaking Bad\""],
         isError := true }, [Call.searchSeries "Breaking Bad"]) ∧
    addSeriesExecute cAddEx
        { query := "Breaking Bad", rootFolder := "/tv", qualityProfile := "NonExistent" } =
      ({ content := [Content.text
           "Quality profile \"NonExistent\" not found. Available profiles: HD-1080p"],
         isError := true },
       [Call.searchSeries "Breaking Bad", Call.getQualityProfiles]) ∧
    (addSeriesExecute cAddEx
        { query := "Breaking Bad", rootFolder := "/tv",
          qualityProfile := "5" }).2.filterMap addPayload =
      [{ title := "Breaking Bad", titleSlug := "breaking-bad", tvdbId := 81189,
         qualityProfileId := 5, languageProfileId := 1, rootFolderPath := "/tv",
         monitored := true, seasonFolder := true,
         addOptions := { monitor := "all", searchForMissingEpisodes := false } }] ∧
    ((addSeriesExecute cAddEx
        { query := "Breaking Bad", rootFolder := "/tv",
          qualityProfile := "5" }).1).isError = false := by
  refine ⟨?_, ?_, ?_, ?_⟩
  · have h := (add_series_guards_and_defaults.1 cEmptySearch
      { query := "Breaking Bad", rootFolder := "/tv", qualityProfile := "HD-1080p" }
      rfl).1
    exact h.trans rfl
  · have h := (add_series_guards_and_defaults.2.1 cAddEx
      { query := "Breaking Bad", rootFolder := "/tv", qualityProfile := "NonExistent" }
      sdEx [] [qpEx] rfl rfl rfl rfl).1
    exact h.trans rfl
  · rfl
  · obtain ⟨p, _, _, _, _, _, _, h7⟩ := add_series_guards_and_defaults.2.2 cAddEx
      { query := "Breaking Bad", rootFolder := "/tv", qualityProfile := "5" }
      sdEx [] [qpEx] [lpEx] addedEx 5 rfl rfl rfl rfl (fun _ => rfl) rfl rfl rfl
    exact h7

/-- C5: `manage_queue` with `action="list"` reshapes each queue record with a
progress of `round((1 - sizeLeft/size) * 100)` percent when the size is
positive and `"Unknown"` when it is 0; with `action="remove"` and a (nonzero)
queue id it removes exactly that entry and returns a confirmation; any other
combination returns an in-band validation error (`isError = true`), never a
thrown one. -/
theorem manage_queue_spec :
    (∀ (c : Client) (a : Args) (qp : Paginated QueueItem),
       a.action = "list" → c.getQueue none = Except.ok qp →
       manageQueueExecute c a =
         ({ content := [
              Content.text ("Found " ++ toString qp.records.length
                ++ " items in download queue"),
              Content.json (Jv.arr (qp.records.map manageQueueItem))] },
          [Call.getQueue none]) ∧
       ∀ item ∈ qp.records,
         (manageQueueItem item).get "progress" =
           some (Jv.str (if 0 < item.size then
               toString (jround ((1 - item.sizeleft / item.size) * 100)) ++ "%"
             else "Unknown"))) ∧
    (∀ (c : Client) (a : Args) (q : Int),
       a.action = "remove" → a.queueId = some q → q ≠ 0 →
       c.removeFromQueue q = Except.ok () →
       manageQueueExecute c a =
         ({ content := [Content.text ("Removed item " ++ toString q ++ " from queue")] },
          [Call.removeFromQueue q])) ∧
    (∀ (c : Client) (a : Args),
       ¬ a.action = "list" → ¬ (a.action = "remove" ∧ truthyI a.queueId = true) →
       manageQueueExecute c a =
         ({ content := [Content.text "Invalid action or missing queueId for remove action"],
            isError := true }, [])) := by
  refine ⟨?_, ?_, ?_⟩
  · intro c a qp ha hq
    refine ⟨by simp [manageQueueExecute, ha, hq], ?_⟩
    intro item _
    rfl
  · intro c a q ha hq hqz hrm
    have hne : ¬ a.action = "list" := by rw [ha]; decide
    simp [manageQueueExecute, beq_iff_eq, hne, ha, hq, truthyI, reqI, bne_iff_ne, hqz, hrm]
  · intro c a h1 h2
    have hc : (a.action == "remove" && truthyI a.queueId) = false := by
      by_contra hcc
      rw [Bool.not_eq_false, Bool.and_eq_true, beq_iff_eq] at hcc
      exact h2 hcc
    simp [manageQueueExecute, beq_iff_eq, h1, hc]

/-- Concrete episode for witness runs. -/
def epEx : Episode :=
  { id := 100, seriesId := 10, seasonNumber := 1, episodeNumber := 2,
    title := "Pilot", airDate := none, hasFile := false, monitored := true }

/-- Concrete quality model for witness runs. -/
def qmEx : QualityModel :=
  { quality := { id := 1, name := "HDTV-1080p", source := "television", resolution := 1080 } }

/-- Concrete queue item: 1 GB total with 200 MB left, i.e. 80% complete. -/
def qItemEx : QueueItem :=
  { id := 1, title := "Breaking.Bad.S01E02", series := addedEx, episode := epEx,
    quality := qmEx, size := 1000000000, sizeleft := 200000000,
    status := "downloading", trackedDownloadStatus := "ok",
    trackedDownloadState := "downloading", timeleft := some "00:10:00",
    estimatedCompletionTime := none, protocol := "torrent",
    downloadClient := "qbit", indexer := "idx", downloadId := "abc",
    errorMessage := none, statusMessages := [] }

/-- Concrete queue item with size 0. -/
def qItemZero : QueueItem := { qItemEx with id := 2, size := 0, sizeleft := 0 }

/-- Client serving the two concrete queue items. -/
def cQueueEx : Client :=
  { failingClient errEx with
    getQueue := fun _ => Except.ok
      { page := 1, pageSize := 100, totalRecords := 2, records := [qItemEx, qItemZero] },
    removeFromQueue := fun _ => Except.ok () }

/-- Witness for C5 at concrete inputs: the 1 GB / 200 MB item reports "80%",
the size-0 item reports "Unknown", remove with id 5 issues exactly that
removal, and remove without a queue id is an in-band validation error. -/
theorem manage_queue_spec_witness :
    (manageQueueItem qItemEx).get "progress" = some (Jv.str "80%") ∧
    (manageQueueItem qItemZero).get "progress" = some (Jv.str "Unknown") ∧
    manageQueueExecute cQueueEx { action := "remove", queueId := some 5 } =
      ({ content := [Content.text "Removed item 5 from queue"] },
       [Call.removeFromQueue 5]) ∧
    (manageQueueExecute cQueueEx { action := "remove" }).1.isError = true ∧
    (manageQueueExecute cQueueEx { action := "retry", queueId := some 5 }).1.isError
      = true := by
  have hlist := manage_queue_spec.1 cQueueEx { action := "list" }
    { page := 1, pageSize := 100, totalRecords := 2, records := [qItemEx, qItemZero] }
    rfl rfl
  refine ⟨?_, ?_, ?_, ?_, ?_⟩
  · have h := hlist.2 qItemEx (by simp)
    rw [h]
    norm_num [qItemEx, jround, ratFloor]
    rfl
  · have h := hlist.2 qItemZero (by simp)
    rw [h]
    norm_num [qItemZero, qItemEx]
  · exact manage_queue_spec.2.1 cQueueEx { action := "remove", queueId := some 5 } 5
      rfl rfl (by decide) rfl
  · have h := manage_queue_spec.2.2 cQueueEx { action := "remove" }
      (by decide) (by simp [truthyI])
    rw [h]
  · have h := manage_queue_spec.2.2 cQueueEx { action := "retry", queueId := some 5 }
      (by decide) (by simp)
    rw [h]

/-- Byte-to-gigabyte conversion used throughout the tool and resource layers:
`bytes / 1024^3` (written as the source's `1024 * 1024 * 1024`) rounded to 2
decimal places. -/
def bytesToGB2 (b : ℚ) : ℚ := (jround (b / (1024 * 1024 * 1024) * 100) : ℚ) / 100

/-- Client with an empty series collection. -/
def cNoSeries : Client :=
  { failingClient errEx with getSeries := Except.ok [] }

/-- C6 counterexample: with an active title-substring filter (`search="zzz"`)
the `list_series` output — its count summary included — is identical to the
output with no filters at all, so the summary wording does not include which
filters were active (the title filter is never reflected). -/
theorem list_series_summary_ignores_search_filter :
    listSeriesExecute cNoSeries { search := some "zzz" } =
      listSeriesExecute cNoSeries {} ∧
    ({ search := some "zzz" } : Args).search ≠ ({} : Args).search := by
  exact ⟨rfl, by simp⟩

/-- C6 (amended): the fetched collection is filtered by the monitored flag,
then status, then a case-insensitive title substring, each optional and
combined with AND semantics; the summary reports the filtered count and its
wording includes the monitored and status filters when active (the title
filter is not reflected in the wording); each entry's size is the byte count
converted to gigabytes rounded to 2 decimals. -/
theorem list_series_filters_spec :
    (∀ (a : Args) (ss : List Series) (s : Series),
       s ∈ listSeriesFilter a ss ↔
         s ∈ ss ∧
         (∀ m, a.monitored = some m → s.monitored = m) ∧
         (truthyS a.status = true → s.status = a.status.getD "") ∧
         (truthyS a.search = true →
            jsIncludes (jsToLower s.title) (jsToLower (a.search.getD "")) = true)) ∧
    (∀ (c : Client) (a : Args) (ss : List Series),
       c.getSeries = Except.ok ss →
       listSeriesExecute c a =
         ({ content := [
              Content.text (listSeriesText a (listSeriesFilter a ss).length),
              Content.json (Jv.arr ((listSeriesFilter a ss).map listSeriesEntry))] },
          [Call.getSeries])) ∧
    (∀ s : Series, ∃ z : ℤ,
       (listSeriesEntry s).get "sizeOnDisk" = some (Jv.str (fmt2 z ++ " GB")) ∧
       (z : ℚ) / 100 = bytesToGB2 s.sizeOnDisk) := by
  refine ⟨?_, ?_, ?_⟩
  · intro a ss s
    simp only [listSeriesFilter]
    rcases hm : a.monitored with _ | m <;>
      by_cases hst : truthyS a.status = true <;>
        by_cases hq : truthyS a.search = true <;>
          simp [hm, hst, hq, List.mem_filter, and_assoc, beq_iff_eq] <;>
            (intro _; tauto)
  · intro c a ss hss
    simp [listSeriesExecute, hss]
  · intro s
    refine ⟨jround (s.sizeOnDisk / (1024 * 1024 * 1024) * 100), rfl, ?_⟩
    norm_num [bytesToGB2]

/-- First series of the filter-composition example: monitored, continuing,
465.66 GB on disk. -/
def s1Ex : Series :=
  { id := 1, title := "Breaking Bad", titleSlug := "breaking-bad", year := 2008,
    status := "continuing", overview := "", network := "AMC", path := "/tv/bb",
    monitored := true, seasonCount := 5, episodeCount := 62, episodeFileCount := 62,
    sizeOnDisk := 500000000000, qualityProfileId := 7, previousAiring := none,
    nextAiring := none, genres := [] }

/-- Second series of the filter-composition example: unmonitored, ended. -/
def s2Ex : Series :=
  { id := 2, title := "The Wire", titleSlug := "the-wire", year := 2002,
    status := "ended", overview := "", network := "HBO", path := "/tv/tw",
    monitored := false, seasonCount := 5, episodeCount := 60, episodeFileCount := 60,
    sizeOnDisk := 0, qualityProfileId := 7, previousAiring := none,
    nextAiring := none, genres := [] }

/-- Client serving the two example series. -/
def cTwoSeries : Client :=
  { failingClient errEx with getSeries := Except.ok [s1Ex, s2Ex] }

/-- Witness for the amended C6 at concrete inputs: `monitored=true` keeps
exactly the one monitored series (AND semantics place it in the filtered
list), adding a title filter matching nothing gives 0 results, the summary
reflects the monitored filter, and the 500 GB size renders as 465.66 GB. -/
theorem list_series_filters_spec_witness :
    (listSeriesFilter { monitored := some true } [s1Ex, s2Ex]).length = 1 ∧
    s1Ex ∈ listSeriesFilter { monitored := some true } [s1Ex, s2Ex] ∧
    (listSeriesFilter { monitored := some true, search := some "zzz" }
        [s1Ex, s2Ex]).length = 0 ∧
    (listSeriesExecute cTwoSeries { monitored := some true }).1.content.head? =
      some (Content.text "Found 1 series (monitored: true)") ∧
    (listSeriesEntry s1Ex).get "sizeOnDisk" = some (Jv.str "465.66 GB") := by
  refine ⟨rfl, ?_, rfl, ?_, ?_⟩
  · exact (list_series_filters_spec.1 { monitored := some true } [s1Ex, s2Ex] s1Ex).mpr
      ⟨by simp, fun m hm => by cases hm; rfl, by simp [truthyS], by simp [truthyS]⟩
  · rw [list_series_filters_spec.2.1 cTwoSeries { monitored := some true } [s1Ex, s2Ex] rfl]
    rfl
  · norm_num [listSeriesEntry, Jv.get, s1Ex, fmt2, jround, ratFloor, List.lookup]
    rfl

/-- Special (season 0) episode that is monitored and has no file. -/
def ep0Ex : Episode :=
  { id := 500, seriesId := 1, seasonNumber := 0, episodeNumber := 1,
    title := "Special", airDate := none, hasFile := false, monitored := true }

/-- Client for the season-0 run: the series has a missing monitored special,
and all search commands succeed. -/
def cSeasonZero : Client :=
  { failingClient errEx with
    getEpisodesBySeries := fun _ => Except.ok [ep0Ex],
    searchSeriesMissing := fun _ => Except.ok (),
    searchEpisodes := fun _ => Except.ok (),
    searchAllMissing := Except.ok () }

/-- C7 counterexample: with both a series id and a season number present
(`seriesId=1, seasonNumber=0` — season 0 is the specials season), the tool
does not fetch the series' episodes at all; it triggers the per-series search
command instead, because mode selection uses JS truthiness and the number 0 is
falsy, not argument presence. -/
theorem search_missing_season_zero_counterexample :
    searchMissingExecute cSeasonZero { seriesId := some 1, seasonNumber := some 0 } =
      ({ content := [Content.text "Started search for missing episodes in series ID 1"] },
       [Call.searchSeriesMissing 1]) ∧
    Call.getEpisodesBySeries 1 ∉
      (searchMissingExecute cSeasonZero
        { seriesId := some 1, seasonNumber := some 0 }).2 := by
  refine ⟨rfl, ?_⟩
  show Call.getEpisodesBySeries 1 ∉ [Call.searchSeriesMissing 1]
  simp

/-- C7 (amended): `search_missing_episodes` has three modes selected by JS
truthiness of the arguments (a value of 0 counts as absent): with no (or zero)
series id it triggers the global missing-episode search command; with a
nonzero series id and no (or zero) season number it triggers the per-series
search command; with both nonzero it fetches that series' episodes, filters to
monitored file-less episodes of that season, issues a per-episode-id search
command when any exist, and otherwise reports zero found as a success result
(`isError` not set), never as an error. -/
theorem search_missing_episodes_modes :
    (∀ (c : Client) (a : Args),
       truthyI a.seriesId = false → c.searchAllMissing = Except.ok () →
       searchMissingExecute c a =
         ({ content := [Content.text
              "Started search for all missing episodes across all series"] },
          [Call.searchAllMissing])) ∧
    (∀ (c : Client) (a : Args),
       truthyI a.seriesId = true → truthyI a.seasonNumber = false →
       c.searchSeriesMissing (reqI a.seriesId) = Except.ok () →
       searchMissingExecute c a =
         ({ content := [Content.text
              ("Started search for missing episodes in series ID "
                ++ toString (reqI a.seriesId))] },
          [Call.searchSeriesMissing (reqI a.seriesId)])) ∧
    (∀ (c : Client) (a : Args) (eps : List Episode),
       truthyI a.seriesId = true → truthyI a.seasonNumber = true →
       c.getEpisodesBySeries (reqI a.seriesId) = Except.ok eps →
       0 < (eps.filter (fun e =>
         e.seasonNumber == reqI a.seasonNumber && !e.hasFile && e.monitored)).length →
       c.searchEpisodes ((eps.filter (fun e =>
         e.seasonNumber == reqI a.seasonNumber && !e.hasFile && e.monitored)).map
           (fun e => e.id)) = Except.ok () →
       searchMissingExecute c a =
         ({ content := [Content.text ("Started search for "
              ++ toString (eps.filter (fun e =>
                   e.seasonNumber == reqI a.seasonNumber && !e.hasFile &&
                     e.monitored)).length
              ++ " missing episodes in season " ++ toString (reqI a.seasonNumber))] },
          [Call.getEpisodesBySeries (reqI a.seriesId),
           Call.searchEpisodes ((eps.filter (fun e =>
             e.seasonNumber == reqI a.seasonNumber && !e.hasFile && e.monitored)).map
               (fun e => e.id))])) ∧
    (∀ (c : Client) (a : Args) (eps : List Episode),
       truthyI a.seriesId = true → truthyI a.seasonNumber = true →
       c.getEpisodesBySeries (reqI a.seriesId) = Except.ok eps →
       (eps.filter (fun e =>
         e.seasonNumber == reqI a.seasonNumber && !e.hasFile && e.monitored)).length
           = 0 →
       searchMissingExecute c a =
         ({ content := [Content.text ("No missing episodes found in season "
              ++ toString (reqI a.seasonNumber))], isError := false },
          [Call.getEpisodesBySeries (reqI a.seriesId)])) := by
  refine ⟨?_, ?_, ?_, ?_⟩
  · intro c a h1 hall
    simp [searchMissingExecute, h1, hall]
  · intro c a h1 h2 hsm
    simp [searchMissingExecute, h1, h2, hsm]
  · intro c a eps h1 h2 heps hlen hse
    simp [searchMissingExecute, h1, h2, heps, hlen, hse]
  · intro c a eps h1 h2 heps hlen
    simp [searchMissingExecute, h1, h2, heps, hlen]

/-- Season-1 episode with a file (not missing). -/
def ep1bEx : Episode :=
  { id := 501, seriesId := 7, seasonNumber := 1, episodeNumber := 3,
    title := "Found", airDate := none, hasFile := true, monitored := true }

/-- Client for the mode witness: one missing season-1 episode (`epEx`), one
already-downloaded one; every search command succeeds. -/
def cMissingEx : Client :=
  { failingClient errEx with
    getEpisodesBySeries := fun _ => Except.ok [epEx, ep1bEx],
    searchSeriesMissing := fun _ => Except.ok (),
    searchEpisodes := fun _ => Except.ok (),
    searchAllMissing := Except.ok () }

/-- Witness for the amended C7 at concrete inputs: all four behaviors, one per
mode, including the zero-found success (not error) case. -/
theorem search_missing_episodes_modes_witness :
    searchMissingExecute cMissingEx {} =
      ({ content := [Content.text
           "Started search for all missing episodes across all series"] },
       [Call.searchAllMissing]) ∧
    searchMissingExecute cMissingEx { seriesId := some 7 } =
      ({ content := [Content.text
           "Started search for missing episodes in series ID 7"] },
       [Call.searchSeriesMissing 7]) ∧
    searchMissingExecute cMissingEx { seriesId := some 7, seasonNumber := some 1 } =
      ({ content := [Content.text
           "Started search for 1 missing episodes in season 1"] },
       [Call.getEpisodesBySeries 7, Call.searchEpisodes [100]]) ∧
    searchMissingExecute cMissingEx { seriesId := some 7, seasonNumber := some 2 } =
      ({ content := [Content.text "No missing episodes found in season 2"],
         isError := false },
       [Call.getEpisodesBySeries 7]) := by
  refine ⟨?_, ?_, ?_, ?_⟩
  · exact (search_missing_episodes_modes.1 cMissingEx {} rfl rfl).trans rfl
  · exact (search_missing_episodes_modes.2.1 cMissingEx { seriesId := some 7 }
      rfl rfl rfl).trans rfl
  · exact (search_missing_episodes_modes.2.2.1 cMissingEx
      { seriesId := some 7, seasonNumber := some 1 } [epEx, ep1bEx]
      rfl rfl rfl (by decide) rfl).trans rfl
  · exact (search_missing_episodes_modes.2.2.2 cMissingEx
      { seriesId := some 7, seasonNumber := some 2 } [epEx, ep1bEx]
      rfl rfl rfl rfl).trans rfl

/-- Disk entry of the concrete conversion example: 500 GB free of 1 TB. -/
def dEx : DiskSpace :=
  { path := "/data", label := "data", freeSpace := 500000000000,
    totalSpace := 1000000000000 }

/-- C8: every byte-to-GB conversion site in the tool and resource layers
computes `bytes / 1024^3` rounded to 2 decimals (`bytesToGB2`), and
percent-free is rounded to the nearest integer; concretely,
`freeSpace = 500_000_000_000` of `totalSpace = 1_000_000_000_000` reports
`freeSpaceGB = 465.66` and `percentFree = 50` (the tool renders the same
values as the strings `"465.66 GB"` and `"50%"`). -/
theorem byte_to_gb_conversions :
    (∀ b : ℚ, bytesToGB2 b = (jround (b / 1024 ^ 3 * 100) : ℚ) / 100) ∧
    (∀ d : DiskSpace,
       (systemDiskEntry d).get "freeSpaceGB" = some (Jv.num (bytesToGB2 d.freeSpace)) ∧
       (systemDiskEntry d).get "totalSpaceGB" = some (Jv.num (bytesToGB2 d.totalSpace)) ∧
       (systemDiskEntry d).get "percentFree" =
         some (Jv.num ((jround (d.freeSpace / d.totalSpace * 100) : ℚ)))) ∧
    (∀ d : DiskSpace, ∃ zf zt : ℤ,
       (systemStatusToolDiskEntry d).get "freeSpace" =
         some (Jv.str (fmt2 zf ++ " GB")) ∧
       (zf : ℚ) / 100 = bytesToGB2 d.freeSpace ∧
       (systemStatusToolDiskEntry d).get "totalSpace" =
         some (Jv.str (fmt2 zt ++ " GB")) ∧
       (zt : ℚ) / 100 = bytesToGB2 d.totalSpace ∧
       (systemStatusToolDiskEntry d).get "percentFree" =
         some (Jv.str (toString (jround (d.freeSpace / d.totalSpace * 100)) ++ "%"))) ∧
    (∀ f : RootFolder,
       (rootFolderEntry f).get "freeSpaceGB" = some (Jv.num (bytesToGB2 f.freeSpace))) ∧
    (∀ s : Series, ∃ z : ℤ,
       (listSeriesEntry s).get "sizeOnDisk" = some (Jv.str (fmt2 z ++ " GB")) ∧
       (z : ℚ) / 100 = bytesToGB2 s.sizeOnDisk) ∧
    (∀ ss : List Series,
       (seriesCollectionData ss).get "totalSizeGB" =
         some (Jv.num (bytesToGB2 (ss.foldl (fun acc s => acc + s.sizeOnDisk) 0)))) ∧
    ((systemDiskEntry dEx).get "freeSpaceGB" = some (Jv.num (46566 / 100)) ∧
     (systemDiskEntry dEx).get "percentFree" = some (Jv.num 50) ∧
     (systemStatusToolDiskEntry dEx).get "freeSpace" = some (Jv.str "465.66 GB") ∧
     (systemStatusToolDiskEntry dEx).get "percentFree" = some (Jv.str "50%")) := by
  refine ⟨?_, ?_, ?_, ?_, ?_, ?_, ?_, ?_, ?_, ?_⟩
  · intro b
    norm_num [bytesToGB2]
  · intro d
    exact ⟨rfl, rfl, rfl⟩
  · intro d
    exact ⟨jround (d.freeSpace / (1024 * 1024 * 1024) * 100),
      jround (d.totalSpace / (1024 * 1024 * 1024) * 100), rfl, rfl, rfl, rfl, rfl⟩
  · intro f
    rfl
  · intro s
    exact ⟨jround (s.sizeOnDisk / (1024 * 1024 * 1024) * 100), rfl, rfl⟩
  · intro ss
    rfl
  · norm_num [systemDiskEntry, Jv.get, List.lookup, dEx, jround, ratFloor]
    rfl
  · norm_num [systemDiskEntry, Jv.get, List.lookup, dEx, jround, ratFloor]
    rfl
  · norm_num [systemStatusToolDiskEntry, Jv.get, List.lookup, dEx, jround, ratFloor, fmt2]
    rfl
  · norm_num [systemStatusToolDiskEntry, Jv.get, List.lookup, dEx, jround, ratFloor]
    rfl

/-- Concrete connection configuration for the connection-test runs. -/
def cfgEx : SonarrConfig :=
  { url := "http://localhost:8989", apiKey := "key", timeout := 30,
    maxRetries := 3, verifySsl := true }

/-- C9 counterexample: on failure the connection test's message is
`Failed to connect to Sonarr at {baseUrl}: {originalMessage}` — at the
concrete base URL and original message it is not the claimed exact form
`Failed to connect to {baseUrl}: {originalMessage}`. -/
theorem testConnection_message_counterexample :
    testConnection cfgEx (Except.error errEx) =
      Except.error
        { message := "Failed to connect to Sonarr at http://localhost:8989: boom",
          statusCode := none } ∧
    "Failed to connect to Sonarr at http://localhost:8989: boom" ≠
      "Failed to connect to " ++ cfgEx.url ++ ": " ++ errEx.message := by
  exact ⟨rfl, by decide⟩

/-- C9 (amended): the connection test calls the system-status endpoint and
resolves silently on success; on any failure it raises an error (with no
status code) whose message is exactly
`Failed to connect to Sonarr at {baseUrl}: {originalMessage}`, wrapping the
original error's message. -/
theorem testConnection_spec :
    (∀ cfg : SonarrConfig, testConnection cfg (Except.ok ()) = Except.ok ()) ∧
    (∀ (cfg : SonarrConfig) (e : ApiError),
       testConnection cfg (Except.error e) =
         Except.error
           { message := "Failed to connect to Sonarr at " ++ cfg.url ++ ": " ++ e.message,
             statusCode := none }) := by
  exact ⟨fun _ => rfl, fun _ _ => rfl⟩

/-- C10: the `sonarr://queue/current` resource reports progress as the number
`round((1 - sizeleft/size) * 100)` for positive sizes and the number `0` for
size 0 — always numeric — whereas the `manage_queue` tool reports the string
`"Unknown"` for size-0 items. -/
theorem queue_resource_progress_numeric :
    (∀ item : QueueItem,
       (queueResourceItem item).get "progress" =
         some (Jv.num (if 0 < item.size then
             (jround ((1 - item.sizeleft / item.size) * 100) : ℚ)
           else 0)) ∧
       ∃ q : ℚ, (queueResourceItem item).get "progress" = some (Jv.num q)) ∧
    (∀ item : QueueItem, item.size = 0 →
       (manageQueueItem item).get "progress" = some (Jv.str "Unknown")) ∧
    ((queueResourceItem qItemZero).get "progress" = some (Jv.num 0) ∧
     (queueResourceItem qItemEx).get "progress" = some (Jv.num 80)) := by
  refine ⟨?_, ?_, ?_, ?_⟩
  · intro item
    exact ⟨rfl, ⟨_, rfl⟩⟩
  · intro item h
    have base : (manageQueueItem item).get "progress" =
        some (Jv.str (if 0 < item.size then
            toString (jround ((1 - item.sizeleft / item.size) * 100)) ++ "%"
          else "Unknown")) := rfl
    rw [base, h]
    norm_num
  · have base : (queueResourceItem qItemZero).get "progress" =
        some (Jv.num (if 0 < qItemZero.size then
            (jround ((1 - qItemZero.sizeleft / qItemZero.size) * 100) : ℚ)
          else 0)) := rfl
    rw [base]
    norm_num [qItemZero, qItemEx]
  · have base : (queueResourceItem qItemEx).get "progress" =
        some (Jv.num (if 0 < qItemEx.size then
            (jround ((1 - qItemEx.sizeleft / qItemEx.size) * 100) : ℚ)
          else 0)) := rfl
    rw [base]
    norm_num [qItemEx, jround, ratFloor]

/-- Witness for C10 at the concrete size-0 queue item: the tool string is
`"Unknown"` while the resource number is `0`. -/
theorem queue_resource_progress_numeric_witness :
    (manageQueueItem qItemZero).get "progress" = some (Jv.str "Unknown") ∧
    (queueResourceItem qItemZero).get "progress" = some (Jv.num 0) := by
  exact ⟨queue_resource_progress_numeric.2.1 qItemZero rfl,
    queue_resource_progress_numeric.2.2.1⟩

end Sonarr
